import Mathlib

/-!
Verification of the registry-management subsystem of the tequila Wine-prefix
manager: the regashii-backed registry store (`src/prefix/regeditor/registry.rs`),
the typed settings editor (`editor.rs`), the TTL cache (`cache.rs`) and the
settings schema (`keys.rs`), embedded shallowly as pure Lean functions.

The store code wraps the external `regashii` crate.  The parts of that crate
the store uses are embedded here with the semantics the repository itself
pins down: `Registry` is a map from key-path strings to keys ordered by
`KeyName` (a `BTreeMap` in the crate), a `Key` is a map from `ValueName` to
`Value` ordered with the unnamed `Default` slot before every `Named` slot,
and `Registry::with(name, key)` inserts `key`, merging its values into an
already-present key of the same name with the incoming values taking
precedence.  The merge behaviour is forced by the repository's own unit
tests (`test_mac_driver_settings`, `test_font_replacements` in `editor.rs`),
which require values written by successive `set_value` calls on the same key
to coexist.  The asynchronous lock around the registry serialises every
operation, so each operation is embedded as a pure function on the registry
state; time (for the cache) is passed explicitly as a natural number of
seconds.
-/

/-- Registry value (regashii `Value`): the tagged union of on-disk value
types; `Delete` is the tombstone marker meaning "remove this slot on the
next save/merge".  `Dword` carries a 32-bit unsigned integer, modelled as a
natural number (the editor only ever writes in-range values). -/
inductive Value where
  | Sz (s : String)
  | ExpandSz (s : String)
  | Dword (d : Nat)
  | Binary (bytes : List Nat)
  | MultiSz (strings : List String)
  | Delete
deriving DecidableEq

/-- Value-slot identity (regashii `ValueName`): the unnamed default slot of a
key is distinct from every named slot.  The derived order of the Rust enum
puts `Default` before every `Named` value, which fixes the iteration order
of a key's `BTreeMap` of values. -/
inductive ValueName where
  | Default
  | Named (name : String)
deriving DecidableEq

/-- The string the store renders a `ValueName` as when comparing against a
caller-supplied value-name string (the `match val_name` blocks in
`registry.rs`). -/
def ValueName.render : ValueName → String
  | .Default => "(default)"
  | .Named n => n

/-- The `ValueName` the store builds from a caller-supplied value-name string
(`set_value` / `delete_value` in `registry.rs`): exactly the string
"(default)" denotes the default slot. -/
def toValueName (value_name : String) : ValueName :=
  if value_name = "(default)" then ValueName.Default else ValueName.Named value_name

/-- First-match lookup in an association list keyed by strings.  Embeds a
map lookup; for lists built only by `updateAssoc` the key occurs at most
once, so first-match agrees with the `BTreeMap`/`HashMap` of the source. -/
def lookupAssoc {α : Type} : List (String × α) → String → Option α
  | [], _ => none
  | (n, a) :: rest, name => if n = name then some a else lookupAssoc rest name

/-- Insert-or-overwrite in an association list keyed by strings: the first
entry with the key is replaced in place, a missing key is appended.  Embeds
a map insert. -/
def updateAssoc {α : Type} : List (String × α) → String → α → List (String × α)
  | [], name, a => [(name, a)]
  | (n, b) :: rest, name, a =>
    if n = name then (n, a) :: rest else (n, b) :: updateAssoc rest name a

/-- Registry key (regashii `Key`): a possibly-deleted key holding a map from
`ValueName` to `Value`.  The `BTreeMap<ValueName, Value>` of the crate is
split into the `Default` slot (which its order places first) and the named
slots. -/
structure Key where
  deleted : Bool
  default : Option Value
  named : List (String × Value)
deriving DecidableEq

/-- Key.new of regashii: an empty, non-deleted key. -/
def Key.new : Key := { deleted := false, default := none, named := [] }

/-- Key::with of regashii: insert-or-overwrite one value slot. -/
def Key.withValue (k : Key) (vn : ValueName) (v : Value) : Key :=
  match vn with
  | .Default => { k with default := some v }
  | .Named n => { k with named := updateAssoc k.named n v }

/-- Merging an incoming key into an existing key of the same name, the
incoming slots taking precedence (the `Registry::with` behaviour pinned by
the repository's tests, see the header comment). -/
def Key.mergeInto (old incoming : Key) : Key :=
  { deleted := old.deleted || incoming.deleted
    default := match incoming.default with
      | some v => some v
      | none => old.default
    named := incoming.named.foldl (fun acc p => updateAssoc acc p.1 p.2) old.named }

/-- Registry text format tag (regashii `Format`); only `Regedit5` is used. -/
inductive Format where
  | Regedit4
  | Regedit5
deriving DecidableEq

/-- Registry (regashii `Registry`): a format tag and the map from raw
key-path strings to keys. -/
structure Registry where
  format : Format
  keys : List (String × Key)
deriving DecidableEq

/-- Registry::new of regashii: an empty registry. -/
def Registry.new (f : Format) : Registry := { format := f, keys := [] }

/-- Insert-or-merge of a key into the key map (see `Key.mergeInto`). -/
def insertKeyAssoc : List (String × Key) → String → Key → List (String × Key)
  | [], path, k => [(path, k)]
  | (p, old) :: rest, path, k =>
    if p = path then (p, Key.mergeInto old k) :: rest
    else (p, old) :: insertKeyAssoc rest path k

/-- Registry::with of regashii: add a key under `path`, merging into an
existing key of that name. -/
def Registry.withKey (reg : Registry) (path : String) (k : Key) : Registry :=
  { reg with keys := insertKeyAssoc reg.keys path k }

/-- WineRegistry::set_value (`registry.rs`): build a fresh key holding the
single slot and install it with `Registry::with` (comment in the source:
"Add or replace the key"), which merges it into the existing key. -/
def WineRegistry.set_value (reg : Registry) (key_path value_name : String) (v : Value) : Registry :=
  reg.withKey key_path (Key.new.withValue (toValueName value_name) v)

/-- WineRegistry::delete_value (`registry.rs`): same as `set_value` with the
`Delete` tombstone as the written value. -/
def WineRegistry.delete_value (reg : Registry) (key_path value_name : String) : Registry :=
  reg.withKey key_path (Key.new.withValue (toValueName value_name) Value.Delete)

/-- WineRegistry::get_value (`registry.rs`): find the key whose raw path
equals `key_path`, then scan its values in map order (default slot first)
for the first whose rendered name equals `value_name`. -/
def WineRegistry.get_value (reg : Registry) (key_path value_name : String) : Option Value :=
  match lookupAssoc reg.keys key_path with
  | none => none
  | some k =>
    if value_name = "(default)" then
      match k.default with
      | some v => some v
      | none => lookupAssoc k.named "(default)"
    else lookupAssoc k.named value_name

/-- WineRegistry::get_key_values (`registry.rs`): every value of the key,
with the default slot rendered as "(default)".  The source collects into a
`HashMap`; the embedding keeps the iteration list. -/
def WineRegistry.get_key_values (reg : Registry) (key_path : String) : List (String × Value) :=
  match lookupAssoc reg.keys key_path with
  | none => []
  | some k =>
    (match k.default with
      | some v => [(("(default)" : String), v)]
      | none => []) ++ k.named

/-- WineRegistry::key_exists (`registry.rs`). -/
def WineRegistry.key_exists (reg : Registry) (key_path : String) : Bool :=
  (lookupAssoc reg.keys key_path).isSome

/-- Error kinds of `PrefixError` as the regeditor constructs them
(`editor.rs` builds `ValidationError` and `InvalidPath`, `registry.rs`
builds `RegistryError`); only their payloads appear in the claims. -/
inductive PrefixError where
  | ValidationError (msg : String)
  | RegistryError (msg : String)
  | InvalidPath (msg : String)
deriving DecidableEq

deriving instance DecidableEq for Except

/-- Outcome of attempting one of the three registry files of a prefix in
`load_from_prefix`: the file was missing (`Ok(None)` in the source), it was
present but failed to parse (`Err` from `deserialize_file`), or it parsed
to a registry (`Ok(Some(_))`). -/
inductive RegFileOutcome where
  | Missing
  | ParseFail
  | Loaded (reg : Registry)
deriving DecidableEq

/-- Whether this outcome contributed an entry to `loaded_files`. -/
def RegFileOutcome.loaded : RegFileOutcome → Bool
  | .Loaded _ => true
  | _ => false

/-- Treating a parse failure like a missing file (content discarded). -/
def RegFileOutcome.discardParseFail : RegFileOutcome → RegFileOutcome
  | .ParseFail => .Missing
  | o => o

/-- WineRegistry::load_from_prefix (`registry.rs`, result-processing part):
sequentially handle system.reg, then userdef.reg, then user.reg.  The
`loaded_files` vector is embedded by the count of loaded files, since only
its emptiness is consulted. -/
def WineRegistry.load_from_prefix
    (system_result userdef_result user_result : RegFileOutcome) :
    Except PrefixError Registry :=
  let merged := Registry.new Format.Regedit5
  let state := match system_result with
    | .Loaded r => (r, 1)
    | _ => (merged, 0)
  let state := match userdef_result with
    | .Loaded r =>
      ((if state.1.keys.isEmpty then r else state.1), state.2 + 1)
    | _ => state
  let state := match user_result with
    | .Loaded r => (r, state.2 + 1)
    | _ => state
  if state.2 = 0 then
    Except.error (PrefixError.RegistryError "No valid registry files found in Wine prefix")
  else
    Except.ok state.1

/-- Modelled from the specification's own wording of the precedence rule
("the result starts as system.reg's parsed registry (if any); is replaced in
its entirety by userdef.reg's parsed registry only if the current result has
zero keys; is then replaced in its entirety by user.reg's parsed registry if
user.reg loaded successfully", failing only when no file loaded), stated
independently of the source so the source can be compared against it. -/
def specWholesalePrecedence
    (system_result userdef_result user_result : RegFileOutcome) :
    Except PrefixError Registry :=
  if system_result.loaded || userdef_result.loaded || user_result.loaded then
    let r0 := match system_result with
      | .Loaded r => r
      | _ => Registry.new Format.Regedit5
    let r1 := match userdef_result with
      | .Loaded r => if r0.keys.isEmpty then r else r0
      | _ => r0
    let r2 := match user_result with
      | .Loaded r => r
      | _ => r1
    Except.ok r2
  else
    Except.error (PrefixError.RegistryError "No valid registry files found in Wine prefix")

/-- Default cache TTL of `cache.rs` (300 seconds). -/
def DEFAULT_CACHE_TTL : Nat := 300

/-- CacheEntry (`cache.rs`): a cached registry handle, its creation instant
and its time to live.  Instants are seconds on an abstract monotone clock. -/
structure CacheEntry where
  registry : Registry
  created_at : Nat
  ttl : Nat
deriving DecidableEq

/-- CacheEntry::is_expired (`cache.rs`): strictly older than its TTL. -/
def CacheEntry.is_expired (e : CacheEntry) (now : Nat) : Bool :=
  now - e.created_at > e.ttl

/-- InMemoryRegistryCache (`cache.rs`): the path-keyed entry map plus the
default TTL handed to new entries. -/
structure InMemoryRegistryCache where
  cache : List (String × CacheEntry)
  default_ttl : Nat
deriving DecidableEq

/-- InMemoryRegistryCache::get_cached_registry (`cache.rs`): a clone of the
cached handle only when the entry exists and has not expired; the lookup
never mutates the map (lazy expiry). -/
def InMemoryRegistryCache.get_cached_registry
    (c : InMemoryRegistryCache) (now : Nat) (prefix_path : String) : Option Registry :=
  match lookupAssoc c.cache prefix_path with
  | some entry => if !entry.is_expired now then some entry.registry else none
  | none => none

/-- InMemoryRegistryCache::cache_registry (`cache.rs`): insert or overwrite
the entry, stamping it with the current instant and the default TTL. -/
def InMemoryRegistryCache.cache_registry
    (c : InMemoryRegistryCache) (now : Nat) (prefix_path : String) (registry : Registry) :
    InMemoryRegistryCache :=
  let entry : CacheEntry := { registry := registry, created_at := now, ttl := c.default_ttl }
  { c with cache := updateAssoc c.cache prefix_path entry }

/-- InMemoryRegistryCache::invalidate_cache (`cache.rs`): remove the entry. -/
def InMemoryRegistryCache.invalidate_cache
    (c : InMemoryRegistryCache) (prefix_path : String) : InMemoryRegistryCache :=
  { c with cache := c.cache.filter (fun p => p.1 ≠ prefix_path) }

/-- Windows version setting (`keys.rs`). -/
inductive WindowsVersion where
  | Win10 | Win81 | Win8 | Win7 | Win2008 | Vista | Win2003
  | WinXP | Win2K | NT40 | WinME | Win98 | Win95 | Win31
deriving DecidableEq

/-- WindowsVersion::to_string (`keys.rs`). -/
def WindowsVersion.to_string : WindowsVersion → String
  | .Win10 => "win10"
  | .Win81 => "win81"
  | .Win8 => "win8"
  | .Win7 => "win7"
  | .Win2008 => "win2008"
  | .Vista => "vista"
  | .Win2003 => "win2003"
  | .WinXP => "winxp"
  | .Win2K => "win2k"
  | .NT40 => "nt40"
  | .WinME => "winme"
  | .Win98 => "win98"
  | .Win95 => "win95"
  | .Win31 => "win31"

/-- WindowsVersion::from_string (`keys.rs`): unknown strings decode to none. -/
def WindowsVersion.from_string (s : String) : Option WindowsVersion :=
  if s = "win10" then some .Win10
  else if s = "win81" then some .Win81
  else if s = "win8" then some .Win8
  else if s = "win7" then some .Win7
  else if s = "win2008" then some .Win2008
  else if s = "vista" then some .Vista
  else if s = "win2003" then some .Win2003
  else if s = "winxp" then some .WinXP
  else if s = "win2k" then some .Win2K
  else if s = "nt40" then some .NT40
  else if s = "winme" then some .WinME
  else if s = "win98" then some .Win98
  else if s = "win95" then some .Win95
  else if s = "win31" then some .Win31
  else none

/-- Direct3D renderer setting (`keys.rs`). -/
inductive D3DRenderer where
  | GDI | OpenGL | Vulkan
deriving DecidableEq

/-- D3DRenderer::to_string (`keys.rs`). -/
def D3DRenderer.to_string : D3DRenderer → String
  | .GDI => "gdi"
  | .OpenGL => "gl"
  | .Vulkan => "vulkan"

/-- D3DRenderer::from_string (`keys.rs`); "no3d" is an alias of "gdi". -/
def D3DRenderer.from_string (s : String) : Option D3DRenderer :=
  if s = "gdi" || s = "no3d" then some .GDI
  else if s = "gl" then some .OpenGL
  else if s = "vulkan" then some .Vulkan
  else none

/-- Offscreen rendering mode (`keys.rs`). -/
inductive OffscreenRenderingMode where
  | Backbuffer | FBO
deriving DecidableEq

/-- OffscreenRenderingMode::to_string (`keys.rs`). -/
def OffscreenRenderingMode.to_string : OffscreenRenderingMode → String
  | .Backbuffer => "backbuffer"
  | .FBO => "fbo"

/-- OffscreenRenderingMode::from_string (`keys.rs`). -/
def OffscreenRenderingMode.from_string (s : String) : Option OffscreenRenderingMode :=
  if s = "backbuffer" then some .Backbuffer
  else if s = "fbo" then some .FBO
  else none

/-- Audio driver setting (`keys.rs`). -/
inductive AudioDriver where
  | Pulse | ALSA | OSS | CoreAudio | Disabled
deriving DecidableEq

/-- AudioDriver::to_string (`keys.rs`). -/
def AudioDriver.to_string : AudioDriver → String
  | .Pulse => "pulse"
  | .ALSA => "alsa"
  | .OSS => "oss"
  | .CoreAudio => "coreaudio"
  | .Disabled => ""

/-- AudioDriver::from_string (`keys.rs`). -/
def AudioDriver.from_string (s : String) : Option AudioDriver :=
  if s = "pulse" then some .Pulse
  else if s = "alsa" then some .ALSA
  else if s = "oss" then some .OSS
  else if s = "coreaudio" then some .CoreAudio
  else if s = "" then some .Disabled
  else none

/-- Graphics driver setting (`keys.rs`). -/
inductive GraphicsDriver where
  | X11 | Mac | Null
deriving DecidableEq

/-- GraphicsDriver::to_string (`keys.rs`). -/
def GraphicsDriver.to_string : GraphicsDriver → String
  | .X11 => "x11"
  | .Mac => "mac"
  | .Null => "null"

/-- GraphicsDriver::from_string (`keys.rs`). -/
def GraphicsDriver.from_string (s : String) : Option GraphicsDriver :=
  if s = "x11" then some .X11
  else if s = "mac" then some .Mac
  else if s = "null" then some .Null
  else none

/-- DLL override setting (`keys.rs`). -/
inductive DllOverrideSetting where
  | Native | Builtin | NativeBuiltin | BuiltinNative | Disabled
deriving DecidableEq

/-- DllOverrideSetting::to_string (`keys.rs`). -/
def DllOverrideSetting.to_string : DllOverrideSetting → String
  | .Native => "native"
  | .Builtin => "builtin"
  | .NativeBuiltin => "native,builtin"
  | .BuiltinNative => "builtin,native"
  | .Disabled => ""

/-- A DLL override entry (`keys.rs`). -/
structure DllOverride where
  dll : String
  setting : DllOverrideSetting
deriving DecidableEq

/-- Windows float-when-inactive mode of the Mac driver (`keys.rs`). -/
inductive WindowsFloatWhenInactive where
  | None | All | NonFullscreen
deriving DecidableEq

/-- WindowsFloatWhenInactive::to_string (`keys.rs`). -/
def WindowsFloatWhenInactive.to_string : WindowsFloatWhenInactive → String
  | .None => "none"
  | .All => "all"
  | .NonFullscreen => "nonfullscreen"

/-- WindowsFloatWhenInactive::from_string (`keys.rs`). -/
def WindowsFloatWhenInactive.from_string (s : String) : Option WindowsFloatWhenInactive :=
  if s = "none" then some .None
  else if s = "all" then some .All
  else if s = "nonfullscreen" then some .NonFullscreen
  else none

/-- A virtual-desktop size (`keys.rs`), width and height being u32 values. -/
structure DesktopSize where
  width : Nat
  height : Nat
deriving DecidableEq

/-- DesktopSize::to_string (`keys.rs`): "WIDTHxHEIGHT". -/
def DesktopSize.to_string (s : DesktopSize) : String :=
  toString s.width ++ "x" ++ toString s.height

/-- DesktopSize::from_string (`keys.rs`): split on the character x into
exactly two parts and parse both as u32 (out-of-range numbers fail the u32
parse). -/
def DesktopSize.from_string (s : String) : Option DesktopSize :=
  match s.splitOn "x" with
  | [w, h] =>
    match w.toNat?, h.toNat? with
    | some width, some height =>
      if width < 2 ^ 32 ∧ height < 2 ^ 32 then some { width := width, height := height }
      else none
    | _, _ => none
  | _ => none

/-- Desktop settings (`keys.rs`): the selected desktop name, the named
desktop sizes (a `HashMap` in the source, embedded as an association list)
and the systray flag. -/
structure DesktopSettings where
  desktop : Option String
  desktops : List (String × DesktopSize)
  show_systray : Bool
deriving DecidableEq

/-- Shader model settings (`keys.rs`): six optional u32 limits. -/
structure ShaderModelSettings where
  max_shader_model_vs : Option Nat
  max_shader_model_ps : Option Nat
  max_shader_model_gs : Option Nat
  max_shader_model_hs : Option Nat
  max_shader_model_ds : Option Nat
  max_shader_model_cs : Option Nat
deriving DecidableEq

/-- X11 driver settings (`keys.rs`): ten optional boolean flags. -/
structure X11DriverSettings where
  decorated : Option Bool
  client_side_graphics : Option Bool
  client_side_with_render : Option Bool
  client_side_antialias_with_render : Option Bool
  client_side_antialias_with_core : Option Bool
  grab_fullscreen : Option Bool
  grab_pointer : Option Bool
  managed : Option Bool
  use_xrandr : Option Bool
  use_xvid_mode : Option Bool
deriving DecidableEq

/-- DPI settings (`keys.rs`). -/
structure DpiSettings where
  log_pixels : Option Nat
deriving DecidableEq

/-- Mac driver settings (`keys.rs`): four optional boolean flags plus the
float-when-inactive mode. -/
structure MacDriverSettings where
  allow_vertical_sync : Option Bool
  capture_displays_for_fullscreen : Option Bool
  use_precise_scrolling : Option Bool
  retina_mode : Option Bool
  windows_float_when_inactive : Option WindowsFloatWhenInactive
deriving DecidableEq

/-- MacDriverSettings::new (`keys.rs`): all fields unset. -/
def MacDriverSettings.new : MacDriverSettings :=
  { allow_vertical_sync := none, capture_displays_for_fullscreen := none
    use_precise_scrolling := none, retina_mode := none
    windows_float_when_inactive := none }

/-- Application-specific settings (`keys.rs`); `desktop_settings` is unused
by the setter and `custom_settings` is a `HashMap` embedded as a list. -/
structure AppSettings where
  name : String
  dll_overrides : List DllOverride
  d3d_renderer : Option D3DRenderer
  offscreen_rendering_mode : Option OffscreenRenderingMode
  desktop_settings : Option DesktopSettings
  custom_settings : List (String × String)
deriving DecidableEq

/-- The characters `validate_value_name` rejects (`editor.rs`). -/
def invalidChars : List Char :=
  ['\\', '/', ':', '*', '?', '\"', '<', '>', '|']

/-- Prefix test on character lists (the semantics of Rust str::starts_with
and of Lean's String.startsWith, written recursively so that it computes by
definitional unfolding). -/
def charsStartWith : List Char → List Char → Bool
  | _, [] => true
  | [], _ :: _ => false
  | c :: cs, p :: ps => c = p && charsStartWith cs ps

/-- String prefix test through `charsStartWith`. -/
def strStartsWith (s pre : String) : Bool :=
  charsStartWith s.toList pre.toList

/-- RegistryEditor::validate_key_path (`editor.rs`): non-empty and starting
with "Software". -/
def RegistryEditor.validate_key_path (key_path : String) : Except PrefixError Unit :=
  if key_path = "" then
    Except.error (PrefixError.ValidationError "Key path cannot be empty")
  else if !strStartsWith key_path "Software" then
    Except.error (PrefixError.ValidationError
      ("Invalid key path format: " ++ key_path ++ ". Expected to start with 'Software'"))
  else Except.ok ()

/-- RegistryEditor::validate_value_name (`editor.rs`): non-empty and free of
the invalid characters; the error names the first offending character. -/
def RegistryEditor.validate_value_name (value_name : String) : Except PrefixError Unit :=
  if value_name = "" then
    Except.error (PrefixError.ValidationError "Value name cannot be empty")
  else
    match value_name.toList.find? (fun c => invalidChars.contains c) with
    | some c =>
      Except.error (PrefixError.ValidationError
        ("Invalid character '" ++ String.singleton c ++ "' in value name"))
    | none => Except.ok ()

/-- RegistryEditor::set_string_value (`editor.rs`): write a `Sz` value. -/
def RegistryEditor.set_string_value (reg : Registry) (key_path value_name value : String) :
    Registry :=
  WineRegistry.set_value reg key_path value_name (Value.Sz value)

/-- RegistryEditor::get_string_value (`editor.rs`): a string only when the
slot holds `Sz` or `ExpandSz`; other value types read as absent. -/
def RegistryEditor.get_string_value (reg : Registry) (key_path value_name : String) :
    Option String :=
  match WineRegistry.get_value reg key_path value_name with
  | some (Value.Sz s) => some s
  | some (Value.ExpandSz s) => some s
  | _ => none

/-- RegistryEditor::set_dword_value (`editor.rs`): write a `Dword` value. -/
def RegistryEditor.set_dword_value (reg : Registry) (key_path value_name : String) (value : Nat) :
    Registry :=
  WineRegistry.set_value reg key_path value_name (Value.Dword value)

/-- RegistryEditor::get_dword_value (`editor.rs`): a number only when the
slot holds `Dword`; other value types read as absent. -/
def RegistryEditor.get_dword_value (reg : Registry) (key_path value_name : String) :
    Option Nat :=
  match WineRegistry.get_value reg key_path value_name with
  | some (Value.Dword d) => some d
  | _ => none

/-- RegistryEditor::get_windows_version (`editor.rs`). -/
def RegistryEditor.get_windows_version (reg : Registry) : Option String :=
  RegistryEditor.get_string_value reg "Software\\Wine" "Version"

/-- RegistryEditor::set_windows_version (`editor.rs`): key path and value
name validated, then the version string parsed, before the single write. -/
def RegistryEditor.set_windows_version (reg : Registry) (version : String) :
    Except PrefixError Unit × Registry :=
  let key_path := "Software\\Wine"
  match RegistryEditor.validate_key_path key_path with
  | .error e => (.error e, reg)
  | .ok _ =>
  match RegistryEditor.validate_value_name "Version" with
  | .error e => (.error e, reg)
  | .ok _ =>
  match WindowsVersion.from_string version with
  | some parsed_version =>
    (.ok (), RegistryEditor.set_string_value reg key_path "Version" parsed_version.to_string)
  | none => (.error (PrefixError.ValidationError ("Invalid Windows version: " ++ version)), reg)

/-- RegistryEditor::get_audio_driver (`editor.rs`): reads the empty-named
slot of the audio drivers key. -/
def RegistryEditor.get_audio_driver (reg : Registry) : Option String :=
  RegistryEditor.get_string_value reg "Software\\Wine\\Drivers\\Audio" ""

/-- RegistryEditor::set_audio_driver (`editor.rs`): validates the key path,
then validates the empty string as a value name, then parses the driver. -/
def RegistryEditor.set_audio_driver (reg : Registry) (driver : String) :
    Except PrefixError Unit × Registry :=
  let key_path := "Software\\Wine\\Drivers\\Audio"
  match RegistryEditor.validate_key_path key_path with
  | .error e => (.error e, reg)
  | .ok _ =>
  match RegistryEditor.validate_value_name "" with
  | .error e => (.error e, reg)
  | .ok _ =>
  match AudioDriver.from_string driver with
  | some parsed_driver =>
    (.ok (), RegistryEditor.set_string_value reg key_path "" parsed_driver.to_string)
  | none => (.error (PrefixError.ValidationError ("Invalid audio driver: " ++ driver)), reg)

/-- RegistryEditor::get_graphics_driver (`editor.rs`). -/
def RegistryEditor.get_graphics_driver (reg : Registry) : Option String :=
  RegistryEditor.get_string_value reg "Software\\Wine\\Drivers\\Graphics" ""

/-- RegistryEditor::set_graphics_driver (`editor.rs`): same shape as
`set_audio_driver`. -/
def RegistryEditor.set_graphics_driver (reg : Registry) (driver : String) :
    Except PrefixError Unit × Registry :=
  let key_path := "Software\\Wine\\Drivers\\Graphics"
  match RegistryEditor.validate_key_path key_path with
  | .error e => (.error e, reg)
  | .ok _ =>
  match RegistryEditor.validate_value_name "" with
  | .error e => (.error e, reg)
  | .ok _ =>
  match GraphicsDriver.from_string driver with
  | some parsed_driver =>
    (.ok (), RegistryEditor.set_string_value reg key_path "" parsed_driver.to_string)
  | none => (.error (PrefixError.ValidationError ("Invalid graphics driver: " ++ driver)), reg)

/-- RegistryEditor::get_video_memory_size (`editor.rs`). -/
def RegistryEditor.get_video_memory_size (reg : Registry) : Option Nat :=
  RegistryEditor.get_dword_value reg "Software\\Wine\\Direct3D" "VideoMemorySize"

/-- RegistryEditor::set_video_memory_size (`editor.rs`): path and name
validation, then the range check 1..=16384, before the single write. -/
def RegistryEditor.set_video_memory_size (reg : Registry) (size_mb : Nat) :
    Except PrefixError Unit × Registry :=
  let key_path := "Software\\Wine\\Direct3D"
  match RegistryEditor.validate_key_path key_path with
  | .error e => (.error e, reg)
  | .ok _ =>
  match RegistryEditor.validate_value_name "VideoMemorySize" with
  | .error e => (.error e, reg)
  | .ok _ =>
  if size_mb = 0 || size_mb > 16384 then
    (.error (PrefixError.ValidationError "Video memory size must be between 1 and 16384 MB"), reg)
  else
    (.ok (), RegistryEditor.set_dword_value reg key_path "VideoMemorySize" size_mb)

/-- RegistryEditor::get_dpi_settings (`editor.rs`): reads
LogPixels under the key "Control Panel\Desktop" with no path validation. -/
def RegistryEditor.get_dpi_settings (reg : Registry) : Option DpiSettings :=
  let log_pixels := RegistryEditor.get_dword_value reg "Control Panel\\Desktop" "LogPixels"
  match log_pixels with
  | none => none
  | some _ => some { log_pixels := log_pixels }

/-- RegistryEditor::set_dpi_settings (`editor.rs`): validates the key path
"Control Panel\Desktop" first, then the DPI range, then the value name. -/
def RegistryEditor.set_dpi_settings (reg : Registry) (settings : DpiSettings) :
    Except PrefixError Unit × Registry :=
  let key_path := "Control Panel\\Desktop"
  match RegistryEditor.validate_key_path key_path with
  | .error e => (.error e, reg)
  | .ok _ =>
  match settings.log_pixels with
  | some dpi =>
    if dpi < 96 then
      (.error (PrefixError.ValidationError "DPI must be at least 96"), reg)
    else
      match RegistryEditor.validate_value_name "LogPixels" with
      | .error e => (.error e, reg)
      | .ok _ => (.ok (), RegistryEditor.set_dword_value reg key_path "LogPixels" dpi)
  | none => (.ok (), reg)

/-- One step of the write-after-validate pattern the composite setters use
for each present field or entry: on an already-failed state the remaining
writes are skipped (the `?` early return of the source); otherwise the value
name is validated and, only if valid, the string value written. -/
def RegistryEditor.writeValidated (key_path value_name value : String)
    (st : Except PrefixError Unit × Registry) : Except PrefixError Unit × Registry :=
  match st with
  | (.error e, reg) => (.error e, reg)
  | (.ok _, reg) =>
    match RegistryEditor.validate_value_name value_name with
    | .error e => (.error e, reg)
    | .ok _ => (.ok (), RegistryEditor.set_string_value reg key_path value_name value)

/-- The desktops loop of RegistryEditor::set_desktop_settings (`editor.rs`):
each entry's name is validated immediately before that entry's write, so a
failure returns with the earlier entries already written. -/
def RegistryEditor.setDesktopsLoop (desktops_path : String) :
    List (String × DesktopSize) → Registry → Except PrefixError Unit × Registry
  | [], reg => (.ok (), reg)
  | (name, size) :: rest, reg =>
    match RegistryEditor.validate_value_name name with
    | .error e => (.error e, reg)
    | .ok _ =>
      RegistryEditor.setDesktopsLoop desktops_path rest
        (RegistryEditor.set_string_value reg desktops_path name size.to_string)

/-- RegistryEditor::set_desktop_settings (`editor.rs`): validates the key
path, then writes the selected desktop (when present), always writes the
ShowSystray dword, then runs the per-entry validated desktops loop. -/
def RegistryEditor.set_desktop_settings (reg : Registry) (settings : DesktopSettings) :
    Except PrefixError Unit × Registry :=
  let key_path := "Software\\Wine\\Explorer"
  match RegistryEditor.validate_key_path key_path with
  | .error e => (.error e, reg)
  | .ok _ =>
  let reg := match settings.desktop with
    | some desktop => RegistryEditor.set_string_value reg key_path "Desktop" desktop
    | none => reg
  let systray_value := if settings.show_systray then 1 else 0
  let reg := RegistryEditor.set_dword_value reg key_path "ShowSystray" systray_value
  RegistryEditor.setDesktopsLoop (key_path ++ "\\Desktops") settings.desktops reg

/-- RegistryEditor::get_desktop_settings (`editor.rs`): reads the desktop
name, defaults ShowSystray to 1 (true) when absent, decodes the desktops
key's `Sz` values through `DesktopSize::from_string`, and always returns
`some`. -/
def RegistryEditor.get_desktop_settings (reg : Registry) : Option DesktopSettings :=
  let key_path := "Software\\Wine\\Explorer"
  let desktop := RegistryEditor.get_string_value reg key_path "Desktop"
  let show_systray := ((RegistryEditor.get_dword_value reg key_path "ShowSystray").getD 1) != 0
  let desktops := (WineRegistry.get_key_values reg (key_path ++ "\\Desktops")).filterMap
    (fun p => match p.2 with
      | Value.Sz size_str => (DesktopSize.from_string size_str).map (fun size => (p.1, size))
      | _ => none)
  some { desktop := desktop, desktops := desktops, show_systray := show_systray }

/-- The DLL-override loop of RegistryEditor::set_app_settings (`editor.rs`):
per-entry validation immediately before each write. -/
def RegistryEditor.setDllOverridesLoop (dll_overrides_path : String) :
    List DllOverride → Registry → Except PrefixError Unit × Registry
  | [], reg => (.ok (), reg)
  | dll_override :: rest, reg =>
    match RegistryEditor.validate_value_name dll_override.dll with
    | .error e => (.error e, reg)
    | .ok _ =>
      RegistryEditor.setDllOverridesLoop dll_overrides_path rest
        (RegistryEditor.set_string_value reg dll_overrides_path dll_override.dll
          dll_override.setting.to_string)

/-- The custom-settings loop of RegistryEditor::set_app_settings
(`editor.rs`): per-entry validation immediately before each write. -/
def RegistryEditor.setCustomSettingsLoop (base_key_path : String) :
    List (String × String) → Registry → Except PrefixError Unit × Registry
  | [], reg => (.ok (), reg)
  | (key, value) :: rest, reg =>
    match RegistryEditor.validate_value_name key with
    | .error e => (.error e, reg)
    | .ok _ =>
      RegistryEditor.setCustomSettingsLoop base_key_path rest
        (RegistryEditor.set_string_value reg base_key_path key value)

/-- RegistryEditor::set_app_settings (`editor.rs`): validates the base key
path, then interleaves per-entry name validation with the writes of the DLL
overrides, the Direct3D renderer, the offscreen rendering mode and the
custom settings. -/
def RegistryEditor.set_app_settings (reg : Registry) (app_name : String)
    (settings : AppSettings) : Except PrefixError Unit × Registry :=
  let base_key_path := "Software\\Wine\\AppDefaults\\" ++ app_name
  match RegistryEditor.validate_key_path base_key_path with
  | .error e => (.error e, reg)
  | .ok _ =>
  match RegistryEditor.setDllOverridesLoop (base_key_path ++ "\\DllOverrides")
      settings.dll_overrides reg with
  | (.error e, reg) => (.error e, reg)
  | (.ok _, reg) =>
  let st := match settings.d3d_renderer with
    | some renderer =>
      RegistryEditor.writeValidated (base_key_path ++ "\\Direct3D") "renderer"
        renderer.to_string (.ok (), reg)
    | none => (.ok (), reg)
  let st := match settings.offscreen_rendering_mode with
    | some mode =>
      RegistryEditor.writeValidated (base_key_path ++ "\\Direct3D") "OffscreenRenderingMode"
        mode.to_string st
    | none => st
  match st with
  | (.error e, reg) => (.error e, reg)
  | (.ok _, reg) => RegistryEditor.setCustomSettingsLoop base_key_path settings.custom_settings reg

/-- RegistryEditor::get_shader_model_settings (`editor.rs`): six dword
reads; none exactly when all six are absent, otherwise the fields are the
reads themselves. -/
def RegistryEditor.get_shader_model_settings (reg : Registry) : Option ShaderModelSettings :=
  let key_path := "Software\\Wine\\Direct3D"
  let max_shader_model_vs := RegistryEditor.get_dword_value reg key_path "MaxShaderModelVS"
  let max_shader_model_ps := RegistryEditor.get_dword_value reg key_path "MaxShaderModelPS"
  let max_shader_model_gs := RegistryEditor.get_dword_value reg key_path "MaxShaderModelGS"
  let max_shader_model_hs := RegistryEditor.get_dword_value reg key_path "MaxShaderModelHS"
  let max_shader_model_ds := RegistryEditor.get_dword_value reg key_path "MaxShaderModelDS"
  let max_shader_model_cs := RegistryEditor.get_dword_value reg key_path "MaxShaderModelCS"
  if max_shader_model_vs.isNone && max_shader_model_ps.isNone && max_shader_model_gs.isNone
      && max_shader_model_hs.isNone && max_shader_model_ds.isNone
      && max_shader_model_cs.isNone then
    none
  else
    some { max_shader_model_vs := max_shader_model_vs
           max_shader_model_ps := max_shader_model_ps
           max_shader_model_gs := max_shader_model_gs
           max_shader_model_hs := max_shader_model_hs
           max_shader_model_ds := max_shader_model_ds
           max_shader_model_cs := max_shader_model_cs }

/-- RegistryEditor::get_x11_driver_settings (`editor.rs`): ten string reads;
none exactly when all ten are absent, and each present read decoded by the
per-field comparison of the source (most flags are enabled unless the value
is exactly "N"; GrabFullscreen and UseXVidMode are enabled only when it is
exactly "Y"). -/
def RegistryEditor.get_x11_driver_settings (reg : Registry) : Option X11DriverSettings :=
  let key_path := "Software\\Wine\\X11 Driver"
  let decorated := RegistryEditor.get_string_value reg key_path "Decorated"
  let client_side_graphics := RegistryEditor.get_string_value reg key_path "ClientSideGraphics"
  let client_side_with_render :=
    RegistryEditor.get_string_value reg key_path "ClientSideWithRender"
  let client_side_antialias_with_render :=
    RegistryEditor.get_string_value reg key_path "ClientSideAntiAliasWithRender"
  let client_side_antialias_with_core :=
    RegistryEditor.get_string_value reg key_path "ClientSideAntiAliasWithCore"
  let grab_fullscreen := RegistryEditor.get_string_value reg key_path "GrabFullscreen"
  let grab_pointer := RegistryEditor.get_string_value reg key_path "GrabPointer"
  let managed := RegistryEditor.get_string_value reg key_path "Managed"
  let use_xrandr := RegistryEditor.get_string_value reg key_path "UseXRandR"
  let use_xvid_mode := RegistryEditor.get_string_value reg key_path "UseXVidMode"
  if decorated.isNone && client_side_graphics.isNone && client_side_with_render.isNone
      && client_side_antialias_with_render.isNone && client_side_antialias_with_core.isNone
      && grab_fullscreen.isNone && grab_pointer.isNone && managed.isNone
      && use_xrandr.isNone && use_xvid_mode.isNone then
    none
  else
    some { decorated := decorated.map (fun s => !(s == "N"))
           client_side_graphics := client_side_graphics.map (fun s => !(s == "N"))
           client_side_with_render := client_side_with_render.map (fun s => !(s == "N"))
           client_side_antialias_with_render :=
             client_side_antialias_with_render.map (fun s => !(s == "N"))
           client_side_antialias_with_core :=
             client_side_antialias_with_core.map (fun s => !(s == "N"))
           grab_fullscreen := grab_fullscreen.map (fun s => s == "Y")
           grab_pointer := grab_pointer.map (fun s => !(s == "N"))
           managed := managed.map (fun s => !(s == "N"))
           use_xrandr := use_xrandr.map (fun s => !(s == "N"))
           use_xvid_mode := use_xvid_mode.map (fun s => s == "Y") }

/-- RegistryEditor::get_mac_driver_settings (`editor.rs`): five string
reads; none exactly when all five are absent; the three lowercase flags are
true exactly on "y", retina mode exactly on "Y", and the float mode is
decoded through `WindowsFloatWhenInactive::from_string` (staying unset on an
unrecognised string). -/
def RegistryEditor.get_mac_driver_settings (reg : Registry) : Option MacDriverSettings :=
  let key_path := "Software\\Wine\\Mac Driver"
  let allow_vertical_sync := RegistryEditor.get_string_value reg key_path "AllowVerticalSync"
  let capture_displays_for_fullscreen :=
    RegistryEditor.get_string_value reg key_path "CaptureDisplaysForFullscreen"
  let use_precise_scrolling :=
    RegistryEditor.get_string_value reg key_path "UsePreciseScrolling"
  let retina_mode := RegistryEditor.get_string_value reg key_path "RetinaMode"
  let windows_float_when_inactive :=
    RegistryEditor.get_string_value reg key_path "WindowsFloatWhenInactive"
  if allow_vertical_sync.isNone && capture_displays_for_fullscreen.isNone
      && use_precise_scrolling.isNone && retina_mode.isNone
      && windows_float_when_inactive.isNone then
    none
  else
    some { allow_vertical_sync := allow_vertical_sync.map (fun s => s == "y")
           capture_displays_for_fullscreen :=
             capture_displays_for_fullscreen.map (fun s => s == "y")
           use_precise_scrolling := use_precise_scrolling.map (fun s => s == "y")
           retina_mode := retina_mode.map (fun s => s == "Y")
           windows_float_when_inactive :=
             windows_float_when_inactive.bind WindowsFloatWhenInactive.from_string }

/-- RegistryEditor::set_mac_driver_settings (`editor.rs`): validates the key
path, then for each present field validates its (constant) value name and
writes its per-field encoding — lowercase "y"/"n" for the first three flags,
uppercase "Y" / lowercase "n" for retina mode, and the mode string for the
float setting. -/
def RegistryEditor.set_mac_driver_settings (reg : Registry) (settings : MacDriverSettings) :
    Except PrefixError Unit × Registry :=
  let key_path := "Software\\Wine\\Mac Driver"
  match RegistryEditor.validate_key_path key_path with
  | .error e => (.error e, reg)
  | .ok _ =>
  let st := (Except.ok (), reg)
  let st := match settings.allow_vertical_sync with
    | some sync =>
      RegistryEditor.writeValidated key_path "AllowVerticalSync"
        (if sync then "y" else "n") st
    | none => st
  let st := match settings.capture_displays_for_fullscreen with
    | some capture =>
      RegistryEditor.writeValidated key_path "CaptureDisplaysForFullscreen"
        (if capture then "y" else "n") st
    | none => st
  let st := match settings.use_precise_scrolling with
    | some scrolling =>
      RegistryEditor.writeValidated key_path "UsePreciseScrolling"
        (if scrolling then "y" else "n") st
    | none => st
  let st := match settings.retina_mode with
    | some retina =>
      RegistryEditor.writeValidated key_path "RetinaMode"
        (if retina then "Y" else "n") st
    | none => st
  let st := match settings.windows_float_when_inactive with
    | some float_mode =>
      RegistryEditor.writeValidated key_path "WindowsFloatWhenInactive"
        float_mode.to_string st
    | none => st
  st

/-- The empty registry every editor starts from (RegistryEditor::new wraps
WineRegistry::new). -/
def emptyRegistry : Registry := Registry.new Format.Regedit5

/-- A registry holding exactly one key named A (for the precedence tests). -/
def regOnlyA : Registry := { format := Format.Regedit5, keys := [("A", Key.new)] }

/-- A registry holding exactly one key named B. -/
def regOnlyB : Registry := { format := Format.Regedit5, keys := [("B", Key.new)] }

/-- A registry holding exactly one key named C. -/
def regOnlyC : Registry := { format := Format.Regedit5, keys := [("C", Key.new)] }

/-- Looking up the key just inserted by `updateAssoc` yields the new value. -/
theorem lookupAssoc_updateAssoc_self {α : Type} (l : List (String × α)) (name : String) (a : α) :
    lookupAssoc (updateAssoc l name a) name = some a := by
  induction l with
  | nil => simp [updateAssoc, lookupAssoc]
  | cons p rest ih =>
    obtain ⟨n, b⟩ := p
    by_cases h : n = name
    · simp [updateAssoc, lookupAssoc, h]
    · simp [updateAssoc, lookupAssoc, h, ih]

/-- `updateAssoc` leaves every other binding of the map unchanged. -/
theorem lookupAssoc_updateAssoc_ne {α : Type} (l : List (String × α))
    (name name' : String) (a : α) (h : name' ≠ name) :
    lookupAssoc (updateAssoc l name a) name' = lookupAssoc l name' := by
  induction l with
  | nil => simp [updateAssoc, lookupAssoc, Ne.symm h]
  | cons p rest ih =>
    obtain ⟨n, b⟩ := p
    by_cases hn : n = name
    · subst hn
      simp [updateAssoc, lookupAssoc, Ne.symm h]
    · simp [updateAssoc, lookupAssoc, hn, ih]

/-- After `insertKeyAssoc` the stored key is the incoming one, merged into the
previously stored key when there was one. -/
theorem lookupAssoc_insertKeyAssoc_self (l : List (String × Key)) (path : String) (k : Key) :
    lookupAssoc (insertKeyAssoc l path k) path =
      some (match lookupAssoc l path with
            | some old => Key.mergeInto old k
            | none => k) := by
  induction l with
  | nil => simp [insertKeyAssoc, lookupAssoc]
  | cons p rest ih =>
    obtain ⟨n, b⟩ := p
    by_cases h : n = path
    · simp [insertKeyAssoc, lookupAssoc, h]
    · simp [insertKeyAssoc, lookupAssoc, h, ih]

/-- `insertKeyAssoc` leaves every other key of the map unchanged. -/
theorem lookupAssoc_insertKeyAssoc_ne (l : List (String × Key))
    (path path' : String) (k : Key) (h : path' ≠ path) :
    lookupAssoc (insertKeyAssoc l path k) path' = lookupAssoc l path' := by
  induction l with
  | nil => simp [insertKeyAssoc, lookupAssoc, Ne.symm h]
  | cons p rest ih =>
    obtain ⟨n, b⟩ := p
    by_cases hn : n = path
    · subst hn
      simp [insertKeyAssoc, lookupAssoc, Ne.symm h]
    · simp [insertKeyAssoc, lookupAssoc, hn, ih]

/-- Removing a key from an association list makes its lookup miss. -/
theorem lookupAssoc_filter_ne {α : Type} (l : List (String × α)) (p : String) :
    lookupAssoc (l.filter (fun q => q.1 ≠ p)) p = none := by
  induction l with
  | nil => simp [lookupAssoc]
  | cons q rest ih =>
    obtain ⟨n, a⟩ := q
    by_cases h : n = p
    · simpa [List.filter_cons, h] using ih
    · simpa [List.filter_cons, h, lookupAssoc] using ih

/-- Reading back the slot just written by `set_value` yields the written
value, whatever the prior state of the registry. -/
theorem get_value_set_value_self (reg : Registry) (key_path value_name : String) (v : Value) :
    WineRegistry.get_value (WineRegistry.set_value reg key_path value_name v) key_path value_name
      = some v := by
  unfold WineRegistry.set_value WineRegistry.get_value Registry.withKey
  rw [show ((({ reg with keys := insertKeyAssoc reg.keys key_path (Key.new.withValue (toValueName value_name) v) } : Registry)).keys) = insertKeyAssoc reg.keys key_path (Key.new.withValue (toValueName value_name) v) from rfl]
  rw [lookupAssoc_insertKeyAssoc_self]
  by_cases hd : value_name = "(default)"
  · subst hd
    cases hol : lookupAssoc reg.keys key_path with
    | none => simp [toValueName, Key.withValue, Key.new]
    | some old => simp [toValueName, Key.withValue, Key.new, Key.mergeInto]
  · cases hol : lookupAssoc reg.keys key_path with
    | none => simp [toValueName, Key.withValue, Key.new, hd, lookupAssoc]
    | some old =>
      simp [toValueName, Key.withValue, Key.new, Key.mergeInto, hd, updateAssoc,
        lookupAssoc_updateAssoc_self]

/-- `set_value` leaves every other slot of the same key unchanged. -/
theorem get_value_set_value_ne_name (reg : Registry) (key_path value_name other_name : String)
    (v : Value) (h : other_name ≠ value_name) :
    WineRegistry.get_value (WineRegistry.set_value reg key_path value_name v) key_path other_name
      = WineRegistry.get_value reg key_path other_name := by
  unfold WineRegistry.set_value WineRegistry.get_value Registry.withKey
  rw [show ((({ reg with keys := insertKeyAssoc reg.keys key_path (Key.new.withValue (toValueName value_name) v) } : Registry)).keys) = insertKeyAssoc reg.keys key_path (Key.new.withValue (toValueName value_name) v) from rfl]
  rw [lookupAssoc_insertKeyAssoc_self]
  by_cases hd : value_name = "(default)"
  · subst hd
    have hother : other_name ≠ "(default)" := h
    cases hol : lookupAssoc reg.keys key_path with
    | none => simp [toValueName, Key.withValue, Key.new, hother, lookupAssoc]
    | some old =>
      simp [toValueName, Key.withValue, Key.new, Key.mergeInto, hother, List.foldl_nil]
  · cases hol : lookupAssoc reg.keys key_path with
    | none =>
      by_cases ho : other_name = "(default)"
      · subst ho
        simp [toValueName, Key.withValue, Key.new, hd, lookupAssoc, updateAssoc, Ne.symm h]
      · simp [toValueName, Key.withValue, Key.new, hd, ho, lookupAssoc, updateAssoc, Ne.symm h]
    | some old =>
      by_cases ho : other_name = "(default)"
      · subst ho
        simp only [toValueName, Key.withValue, Key.new, Key.mergeInto, if_neg hd]
        simp [updateAssoc]
        cases old.default with
        | some w => simp
        | none =>
          simp [lookupAssoc_updateAssoc_ne _ _ _ _ (fun hh : "(default)" = value_name => hd hh.symm)]
      · simp only [toValueName, Key.withValue, Key.new, Key.mergeInto, if_neg hd, if_neg ho]
        simp [updateAssoc, lookupAssoc_updateAssoc_ne _ _ _ _ h]

/-- `set_value` leaves every slot of every other key unchanged. -/
theorem get_value_set_value_ne_key (reg : Registry)
    (key_path other_path value_name other_name : String) (v : Value) (h : other_path ≠ key_path) :
    WineRegistry.get_value (WineRegistry.set_value reg key_path value_name v) other_path other_name
      = WineRegistry.get_value reg other_path other_name := by
  unfold WineRegistry.set_value WineRegistry.get_value Registry.withKey
  rw [show ((({ reg with keys := insertKeyAssoc reg.keys key_path (Key.new.withValue (toValueName value_name) v) } : Registry)).keys) = insertKeyAssoc reg.keys key_path (Key.new.withValue (toValueName value_name) v) from rfl]
  rw [lookupAssoc_insertKeyAssoc_ne _ _ _ _ h]

/-- `delete_value` is `set_value` of the `Delete` tombstone. -/
theorem delete_value_eq_set_value (reg : Registry) (key_path value_name : String) :
    WineRegistry.delete_value reg key_path value_name
      = WineRegistry.set_value reg key_path value_name Value.Delete := rfl

/-- Reading back the string slot just written. -/
theorem get_string_value_set_string_value_self (reg : Registry) (key_path value_name s : String) :
    RegistryEditor.get_string_value (RegistryEditor.set_string_value reg key_path value_name s)
      key_path value_name = some s := by
  simp [RegistryEditor.get_string_value, RegistryEditor.set_string_value,
    get_value_set_value_self]

/-- Reading back the dword slot just written. -/
theorem get_dword_value_set_dword_value_self (reg : Registry) (key_path value_name : String)
    (d : Nat) :
    RegistryEditor.get_dword_value (RegistryEditor.set_dword_value reg key_path value_name d)
      key_path value_name = some d := by
  simp [RegistryEditor.get_dword_value, RegistryEditor.set_dword_value,
    get_value_set_value_self]

/-- A string write leaves every other string slot of the key unchanged. -/
theorem get_string_value_set_string_value_ne (reg : Registry)
    (key_path value_name other_name s : String) (h : other_name ≠ value_name) :
    RegistryEditor.get_string_value (RegistryEditor.set_string_value reg key_path value_name s)
      key_path other_name = RegistryEditor.get_string_value reg key_path other_name := by
  simp [RegistryEditor.get_string_value, RegistryEditor.set_string_value,
    get_value_set_value_ne_name _ _ _ _ _ h]

/-- `charsStartWith` accepts any extension of the asked-for head. -/
theorem charsStartWith_append (pre rest : List Char) :
    charsStartWith (pre ++ rest) pre = true := by
  induction pre with
  | nil => cases rest <;> simp [charsStartWith]
  | cons c cs ih => simp [charsStartWith, ih]

/-- Every AppDefaults key path passes `validate_key_path`, whatever the
application name appended to it. -/
theorem validate_key_path_appDefaults (s : String) :
    RegistryEditor.validate_key_path ("Software\\Wine\\AppDefaults\\" ++ s) = Except.ok () := by
  have hne : ("Software\\Wine\\AppDefaults\\" ++ s) ≠ "" := by
    intro h
    have := congrArg String.data h
    simp at this
  have hsw : strStartsWith ("Software\\Wine\\AppDefaults\\" ++ s) "Software" = true := by
    have hdata : ("Software\\Wine\\AppDefaults\\" ++ s).toList
        = "Software".toList ++ ("\\Wine\\AppDefaults\\".toList ++ s.toList) := by
      simp [String.toList]
    rw [strStartsWith, hdata]
    exact charsStartWith_append _ _
  simp [RegistryEditor.validate_key_path, hne, hsw]

/-- `writeValidated` on a healthy state with a valid name performs its write. -/
theorem writeValidated_ok_state (p n v : String) (reg : Registry)
    (h : RegistryEditor.validate_value_name n = Except.ok ()) :
    RegistryEditor.writeValidated p n v (Except.ok (), reg)
      = (Except.ok (), RegistryEditor.set_string_value reg p n v) := by
  simp [RegistryEditor.writeValidated, h]

/-- The desktops loop succeeds exactly when every entry name is valid
(whatever registry state it starts from). -/
theorem setDesktopsLoop_fst_ok_iff (path : String) (l : List (String × DesktopSize))
    (reg : Registry) :
    (RegistryEditor.setDesktopsLoop path l reg).1 = Except.ok ()
      ↔ ∀ q ∈ l, RegistryEditor.validate_value_name q.1 = Except.ok () := by
  induction l generalizing reg with
  | nil => simp [RegistryEditor.setDesktopsLoop]
  | cons q rest ih =>
    obtain ⟨name, size⟩ := q
    cases hv : RegistryEditor.validate_value_name name with
    | error e => simp [RegistryEditor.setDesktopsLoop, hv]
    | ok u =>
      cases u
      simp [RegistryEditor.setDesktopsLoop, hv, ih]

/-- The DLL-override loop succeeds exactly when every DLL name is valid. -/
theorem setDllOverridesLoop_fst_ok_iff (path : String) (l : List DllOverride)
    (reg : Registry) :
    (RegistryEditor.setDllOverridesLoop path l reg).1 = Except.ok ()
      ↔ ∀ d ∈ l, RegistryEditor.validate_value_name d.dll = Except.ok () := by
  induction l generalizing reg with
  | nil => simp [RegistryEditor.setDllOverridesLoop]
  | cons d rest ih =>
    cases hv : RegistryEditor.validate_value_name d.dll with
    | error e => simp [RegistryEditor.setDllOverridesLoop, hv]
    | ok u =>
      cases u
      simp [RegistryEditor.setDllOverridesLoop, hv, ih]

/-- The custom-settings loop succeeds exactly when every key is valid. -/
theorem setCustomSettingsLoop_fst_ok_iff (path : String) (l : List (String × String))
    (reg : Registry) :
    (RegistryEditor.setCustomSettingsLoop path l reg).1 = Except.ok ()
      ↔ ∀ q ∈ l, RegistryEditor.validate_value_name q.1 = Except.ok () := by
  induction l generalizing reg with
  | nil => simp [RegistryEditor.setCustomSettingsLoop]
  | cons q rest ih =>
    obtain ⟨key, value⟩ := q
    cases hv : RegistryEditor.validate_value_name key with
    | error e => simp [RegistryEditor.setCustomSettingsLoop, hv]
    | ok u =>
      cases u
      simp [RegistryEditor.setCustomSettingsLoop, hv, ih]

/-- `set_desktop_settings` succeeds exactly when every desktops entry name is
valid (the key path is a constant that always validates). -/
theorem set_desktop_settings_fst_ok_iff (reg : Registry) (settings : DesktopSettings) :
    (RegistryEditor.set_desktop_settings reg settings).1 = Except.ok ()
      ↔ ∀ q ∈ settings.desktops, RegistryEditor.validate_value_name q.1 = Except.ok () := by
  have h : RegistryEditor.validate_key_path "Software\\Wine\\Explorer" = Except.ok () := by decide
  simp only [RegistryEditor.set_desktop_settings, h]
  exact setDesktopsLoop_fst_ok_iff _ _ _

/-- `set_app_settings` succeeds exactly when every DLL-override name and every
custom-settings key is valid. -/
theorem set_app_settings_fst_ok_iff (reg : Registry) (app_name : String)
    (settings : AppSettings) :
    (RegistryEditor.set_app_settings reg app_name settings).1 = Except.ok ()
      ↔ ((∀ d ∈ settings.dll_overrides,
            RegistryEditor.validate_value_name d.dll = Except.ok ())
        ∧ ∀ q ∈ settings.custom_settings,
            RegistryEditor.validate_value_name q.1 = Except.ok ()) := by
  have hkp := validate_key_path_appDefaults app_name
  have hren : RegistryEditor.validate_value_name "renderer" = Except.ok () := by decide
  have horm : RegistryEditor.validate_value_name "OffscreenRenderingMode" = Except.ok () := by
    decide
  simp only [RegistryEditor.set_app_settings, hkp]
  cases hdll : RegistryEditor.setDllOverridesLoop
      ("Software\\Wine\\AppDefaults\\" ++ app_name ++ "\\DllOverrides")
      settings.dll_overrides reg with
  | mk res reg2 =>
    cases res with
    | error e =>
      have hnall : ¬ ∀ d ∈ settings.dll_overrides,
          RegistryEditor.validate_value_name d.dll = Except.ok () := by
        intro hall
        have hok := (setDllOverridesLoop_fst_ok_iff
          ("Software\\Wine\\AppDefaults\\" ++ app_name ++ "\\DllOverrides")
          settings.dll_overrides reg).mpr hall
        rw [hdll] at hok
        simp at hok
      simp [hnall]
    | ok u =>
      cases u
      have hall : ∀ d ∈ settings.dll_overrides,
          RegistryEditor.validate_value_name d.dll = Except.ok () :=
        (setDllOverridesLoop_fst_ok_iff _ _ reg).mp (by rw [hdll])
      cases hr3 : settings.d3d_renderer with
      | none =>
        cases hm : settings.offscreen_rendering_mode with
        | none =>
          simp [hall, setCustomSettingsLoop_fst_ok_iff]
          exact fun _ => hall
        | some m =>
          simp [writeValidated_ok_state _ _ _ _ horm, hall, setCustomSettingsLoop_fst_ok_iff]
          exact fun _ => hall
      | some r =>
        cases hm : settings.offscreen_rendering_mode with
        | none =>
          simp [writeValidated_ok_state _ _ _ _ hren, hall, setCustomSettingsLoop_fst_ok_iff]
          exact fun _ => hall
        | some m =>
          simp [writeValidated_ok_state _ _ _ _ hren, writeValidated_ok_state _ _ _ _ horm,
            hall, setCustomSettingsLoop_fst_ok_iff]
          exact fun _ => hall

/-- `set_audio_driver` always fails: the empty value name it validates is
rejected by `validate_value_name`, before the driver string is even parsed. -/
theorem set_audio_driver_eq (reg : Registry) (driver : String) :
    RegistryEditor.set_audio_driver reg driver
      = (Except.error (PrefixError.ValidationError "Value name cannot be empty"), reg) := by
  have h : RegistryEditor.validate_value_name ""
      = Except.error (PrefixError.ValidationError "Value name cannot be empty") := by decide
  have ha : RegistryEditor.validate_key_path "Software\\Wine\\Drivers\\Audio"
      = Except.ok () := by decide
  simp [RegistryEditor.set_audio_driver, ha, h]

/-- `set_graphics_driver` always fails the same way as `set_audio_driver`. -/
theorem set_graphics_driver_eq (reg : Registry) (driver : String) :
    RegistryEditor.set_graphics_driver reg driver
      = (Except.error (PrefixError.ValidationError "Value name cannot be empty"), reg) := by
  have h : RegistryEditor.validate_value_name ""
      = Except.error (PrefixError.ValidationError "Value name cannot be empty") := by decide
  have hg : RegistryEditor.validate_key_path "Software\\Wine\\Drivers\\Graphics"
      = Except.ok () := by decide
  simp [RegistryEditor.set_graphics_driver, hg, h]

/-- `set_dpi_settings` always fails: its key path does not start with
"Software", so `validate_key_path` rejects it before anything else runs. -/
theorem set_dpi_settings_eq (reg : Registry) (settings : DpiSettings) :
    RegistryEditor.set_dpi_settings reg settings
      = (Except.error (PrefixError.ValidationError
          "Invalid key path format: Control Panel\\Desktop. Expected to start with 'Software'"),
        reg) := by
  have h : RegistryEditor.validate_key_path "Control Panel\\Desktop"
      = Except.error (PrefixError.ValidationError
          "Invalid key path format: Control Panel\\Desktop. Expected to start with 'Software'") := by
    decide
  simp [RegistryEditor.set_dpi_settings, h]

/-- Out-of-range sizes make `set_video_memory_size` fail without touching the
registry. -/
theorem set_video_memory_size_out_of_range (reg : Registry) (size_mb : Nat)
    (h : size_mb = 0 ∨ size_mb > 16384) :
    RegistryEditor.set_video_memory_size reg size_mb
      = (Except.error
          (PrefixError.ValidationError "Video memory size must be between 1 and 16384 MB"), reg) := by
  have h1 : RegistryEditor.validate_key_path "Software\\Wine\\Direct3D" = Except.ok () := by decide
  have h2 : RegistryEditor.validate_value_name "VideoMemorySize" = Except.ok () := by decide
  simp [RegistryEditor.set_video_memory_size, h1, h2, h]

/-- In-range sizes make `set_video_memory_size` write the dword. -/
theorem set_video_memory_size_in_range (reg : Registry) (size_mb : Nat)
    (h : ¬(size_mb = 0 ∨ size_mb > 16384)) :
    RegistryEditor.set_video_memory_size reg size_mb
      = (Except.ok (),
        RegistryEditor.set_dword_value reg "Software\\Wine\\Direct3D" "VideoMemorySize" size_mb) := by
  have h1 : RegistryEditor.validate_key_path "Software\\Wine\\Direct3D" = Except.ok () := by decide
  have h2 : RegistryEditor.validate_value_name "VideoMemorySize" = Except.ok () := by decide
  simp [RegistryEditor.set_video_memory_size, h1, h2, h]

/-- `get_shader_model_settings` returns none exactly when all six reads miss. -/
theorem shader_none_iff (reg : Registry) :
    RegistryEditor.get_shader_model_settings reg = none
      ↔ (RegistryEditor.get_dword_value reg "Software\\Wine\\Direct3D" "MaxShaderModelVS" = none
        ∧ RegistryEditor.get_dword_value reg "Software\\Wine\\Direct3D" "MaxShaderModelPS" = none
        ∧ RegistryEditor.get_dword_value reg "Software\\Wine\\Direct3D" "MaxShaderModelGS" = none
        ∧ RegistryEditor.get_dword_value reg "Software\\Wine\\Direct3D" "MaxShaderModelHS" = none
        ∧ RegistryEditor.get_dword_value reg "Software\\Wine\\Direct3D" "MaxShaderModelDS" = none
        ∧ RegistryEditor.get_dword_value reg "Software\\Wine\\Direct3D" "MaxShaderModelCS" = none) := by
  have hgen : ∀ (c : Bool) (x : ShaderModelSettings),
      ((if c = true then none else some x) = none ↔ c = true) := by
    intro c x
    cases c <;> simp
  simp only [RegistryEditor.get_shader_model_settings]
  rw [hgen]
  simp only [Bool.and_eq_true, Option.isNone_iff_eq_none]
  tauto

/-- When `get_shader_model_settings` returns a record, its fields are exactly
the six primitive reads. -/
theorem shader_some_eq (reg : Registry) (s : ShaderModelSettings)
    (h : RegistryEditor.get_shader_model_settings reg = some s) :
    s = { max_shader_model_vs :=
            RegistryEditor.get_dword_value reg "Software\\Wine\\Direct3D" "MaxShaderModelVS"
          max_shader_model_ps :=
            RegistryEditor.get_dword_value reg "Software\\Wine\\Direct3D" "MaxShaderModelPS"
          max_shader_model_gs :=
            RegistryEditor.get_dword_value reg "Software\\Wine\\Direct3D" "MaxShaderModelGS"
          max_shader_model_hs :=
            RegistryEditor.get_dword_value reg "Software\\Wine\\Direct3D" "MaxShaderModelHS"
          max_shader_model_ds :=
            RegistryEditor.get_dword_value reg "Software\\Wine\\Direct3D" "MaxShaderModelDS"
          max_shader_model_cs :=
            RegistryEditor.get_dword_value reg "Software\\Wine\\Direct3D" "MaxShaderModelCS" } := by
  simp only [RegistryEditor.get_shader_model_settings] at h
  split_ifs at h with hc
  injection h with h
  exact h.symm

/-- `get_mac_driver_settings` returns none exactly when all five reads miss. -/
theorem mac_none_iff (reg : Registry) :
    RegistryEditor.get_mac_driver_settings reg = none
      ↔ (RegistryEditor.get_string_value reg "Software\\Wine\\Mac Driver" "AllowVerticalSync" = none
        ∧ RegistryEditor.get_string_value reg "Software\\Wine\\Mac Driver"
            "CaptureDisplaysForFullscreen" = none
        ∧ RegistryEditor.get_string_value reg "Software\\Wine\\Mac Driver"
            "UsePreciseScrolling" = none
        ∧ RegistryEditor.get_string_value reg "Software\\Wine\\Mac Driver" "RetinaMode" = none
        ∧ RegistryEditor.get_string_value reg "Software\\Wine\\Mac Driver"
            "WindowsFloatWhenInactive" = none) := by
  have hgen : ∀ (c : Bool) (x : MacDriverSettings),
      ((if c = true then none else some x) = none ↔ c = true) := by
    intro c x
    cases c <;> simp
  simp only [RegistryEditor.get_mac_driver_settings]
  rw [hgen]
  simp only [Bool.and_eq_true, Option.isNone_iff_eq_none]
  tauto

/-- A Mac-driver field whose read misses stays unset in the returned record. -/
theorem mac_some_fields (reg : Registry) (s : MacDriverSettings)
    (h : RegistryEditor.get_mac_driver_settings reg = some s) :
    (RegistryEditor.get_string_value reg "Software\\Wine\\Mac Driver" "AllowVerticalSync" = none
      → s.allow_vertical_sync = none)
    ∧ (RegistryEditor.get_string_value reg "Software\\Wine\\Mac Driver"
          "CaptureDisplaysForFullscreen" = none
      → s.capture_displays_for_fullscreen = none)
    ∧ (RegistryEditor.get_string_value reg "Software\\Wine\\Mac Driver"
          "UsePreciseScrolling" = none
      → s.use_precise_scrolling = none)
    ∧ (RegistryEditor.get_string_value reg "Software\\Wine\\Mac Driver" "RetinaMode" = none
      → s.retina_mode = none)
    ∧ (RegistryEditor.get_string_value reg "Software\\Wine\\Mac Driver"
          "WindowsFloatWhenInactive" = none
      → s.windows_float_when_inactive = none) := by
  simp only [RegistryEditor.get_mac_driver_settings] at h
  split_ifs at h with hc
  injection h with h
  subst h
  refine ⟨fun hr => ?_, fun hr => ?_, fun hr => ?_, fun hr => ?_, fun hr => ?_⟩ <;>
    simp [hr]

/-- `get_x11_driver_settings` returns none exactly when all ten reads miss. -/
theorem x11_none_iff (reg : Registry) :
    RegistryEditor.get_x11_driver_settings reg = none
      ↔ (RegistryEditor.get_string_value reg "Software\\Wine\\X11 Driver" "Decorated" = none
        ∧ RegistryEditor.get_string_value reg "Software\\Wine\\X11 Driver"
            "ClientSideGraphics" = none
        ∧ RegistryEditor.get_string_value reg "Software\\Wine\\X11 Driver"
            "ClientSideWithRender" = none
        ∧ RegistryEditor.get_string_value reg "Software\\Wine\\X11 Driver"
            "ClientSideAntiAliasWithRender" = none
        ∧ RegistryEditor.get_string_value reg "Software\\Wine\\X11 Driver"
            "ClientSideAntiAliasWithCore" = none
        ∧ RegistryEditor.get_string_value reg "Software\\Wine\\X11 Driver" "GrabFullscreen" = none
        ∧ RegistryEditor.get_string_value reg "Software\\Wine\\X11 Driver" "GrabPointer" = none
        ∧ RegistryEditor.get_string_value reg "Software\\Wine\\X11 Driver" "Managed" = none
        ∧ RegistryEditor.get_string_value reg "Software\\Wine\\X11 Driver" "UseXRandR" = none
        ∧ RegistryEditor.get_string_value reg "Software\\Wine\\X11 Driver" "UseXVidMode" = none) := by
  have hgen : ∀ (c : Bool) (x : X11DriverSettings),
      ((if c = true then none else some x) = none ↔ c = true) := by
    intro c x
    cases c <;> simp
  simp only [RegistryEditor.get_x11_driver_settings]
  rw [hgen]
  simp only [Bool.and_eq_true, Option.isNone_iff_eq_none]
  tauto

/-- An X11-driver field whose read misses stays unset in the returned record. -/
theorem x11_some_fields (reg : Registry) (s : X11DriverSettings)
    (h : RegistryEditor.get_x11_driver_settings reg = some s) :
    (RegistryEditor.get_string_value reg "Software\\Wine\\X11 Driver" "Decorated" = none
      → s.decorated = none)
    ∧ (RegistryEditor.get_string_value reg "Software\\Wine\\X11 Driver" "ClientSideGraphics" = none
      → s.client_side_graphics = none)
    ∧ (RegistryEditor.get_string_value reg "Software\\Wine\\X11 Driver"
          "ClientSideWithRender" = none
      → s.client_side_with_render = none)
    ∧ (RegistryEditor.get_string_value reg "Software\\Wine\\X11 Driver"
          "ClientSideAntiAliasWithRender" = none
      → s.client_side_antialias_with_render = none)
    ∧ (RegistryEditor.get_string_value reg "Software\\Wine\\X11 Driver"
          "ClientSideAntiAliasWithCore" = none
      → s.client_side_antialias_with_core = none)
    ∧ (RegistryEditor.get_string_value reg "Software\\Wine\\X11 Driver" "GrabFullscreen" = none
      → s.grab_fullscreen = none)
    ∧ (RegistryEditor.get_string_value reg "Software\\Wine\\X11 Driver" "GrabPointer" = none
      → s.grab_pointer = none)
    ∧ (RegistryEditor.get_string_value reg "Software\\Wine\\X11 Driver" "Managed" = none
      → s.managed = none)
    ∧ (RegistryEditor.get_string_value reg "Software\\Wine\\X11 Driver" "UseXRandR" = none
      → s.use_xrandr = none)
    ∧ (RegistryEditor.get_string_value reg "Software\\Wine\\X11 Driver" "UseXVidMode" = none
      → s.use_xvid_mode = none) := by
  simp only [RegistryEditor.get_x11_driver_settings] at h
  split_ifs at h with hc
  injection h with h
  subst h
  refine ⟨fun hr => ?_, fun hr => ?_, fun hr => ?_, fun hr => ?_, fun hr => ?_,
    fun hr => ?_, fun hr => ?_, fun hr => ?_, fun hr => ?_, fun hr => ?_⟩ <;>
    simp [hr]

/-- `get_desktop_settings` always produces a record; the desktop field is the
raw read and ShowSystray silently defaults to enabled when its read misses. -/
theorem desktop_always_some (reg : Registry) :
    ∃ s, RegistryEditor.get_desktop_settings reg = some s
      ∧ s.desktop = RegistryEditor.get_string_value reg "Software\\Wine\\Explorer" "Desktop"
      ∧ (RegistryEditor.get_dword_value reg "Software\\Wine\\Explorer" "ShowSystray" = none
          → s.show_systray = true) := by
  refine ⟨_, rfl, rfl, fun hr => ?_⟩
  simp [RegistryEditor.get_desktop_settings, hr]

/-- C1: for distinct value names (the default slot included), two successive
`set_value` calls under one key leave both slots independently retrievable,
and `set_value` / `delete_value` touch only their own slot — every other
(value-name, value) pair under the key, and every other key, reads exactly
as before. -/
theorem set_value_independent_slots (reg : Registry) (k n1 n2 : String)
    (v1 v2 : Value) (hne : n1 ≠ n2) :
    WineRegistry.get_value
        (WineRegistry.set_value (WineRegistry.set_value reg k n1 v1) k n2 v2) k n1 = some v1
    ∧ WineRegistry.get_value
        (WineRegistry.set_value (WineRegistry.set_value reg k n1 v1) k n2 v2) k n2 = some v2
    ∧ (∀ n' v, n' ≠ n1 →
        WineRegistry.get_value (WineRegistry.set_value reg k n1 v) k n'
          = WineRegistry.get_value reg k n')
    ∧ (∀ k' n' v, k' ≠ k →
        WineRegistry.get_value (WineRegistry.set_value reg k n1 v) k' n'
          = WineRegistry.get_value reg k' n')
    ∧ (∀ n', n' ≠ n1 →
        WineRegistry.get_value (WineRegistry.delete_value reg k n1) k n'
          = WineRegistry.get_value reg k n')
    ∧ (∀ k' n', k' ≠ k →
        WineRegistry.get_value (WineRegistry.delete_value reg k n1) k' n'
          = WineRegistry.get_value reg k' n') := by
  refine ⟨?_, ?_, ?_, ?_, ?_, ?_⟩
  · rw [get_value_set_value_ne_name _ _ _ _ _ hne, get_value_set_value_self]
  · rw [get_value_set_value_self]
  · exact fun n' v h => get_value_set_value_ne_name _ _ _ _ _ h
  · exact fun k' n' v h => get_value_set_value_ne_key _ _ _ _ _ _ h
  · exact fun n' h => by
      rw [delete_value_eq_set_value, get_value_set_value_ne_name _ _ _ _ _ h]
  · exact fun k' n' h => by
      rw [delete_value_eq_set_value, get_value_set_value_ne_key _ _ _ _ _ _ h]

/-- C1 witness: the default slot and a named slot of one key coexist after
being written one after the other. -/
theorem set_value_independent_slots_witness :
    WineRegistry.get_value
        (WineRegistry.set_value
          (WineRegistry.set_value emptyRegistry "Software\\Wine\\Drivers\\Audio"
            "(default)" (Value.Sz "pulse"))
          "Software\\Wine\\Drivers\\Audio" "SomeName" (Value.Sz "alsa"))
        "Software\\Wine\\Drivers\\Audio" "(default)" = some (Value.Sz "pulse")
    ∧ WineRegistry.get_value
        (WineRegistry.set_value
          (WineRegistry.set_value emptyRegistry "Software\\Wine\\Drivers\\Audio"
            "(default)" (Value.Sz "pulse"))
          "Software\\Wine\\Drivers\\Audio" "SomeName" (Value.Sz "alsa"))
        "Software\\Wine\\Drivers\\Audio" "SomeName" = some (Value.Sz "alsa") := by
  have h := set_value_independent_slots emptyRegistry "Software\\Wine\\Drivers\\Audio"
    "(default)" "SomeName" (Value.Sz "pulse") (Value.Sz "alsa") (by decide)
  exact ⟨h.1, h.2.1⟩

/-- C2 counterexample: with system.reg absent and both userdef.reg and
user.reg parsed (so that only system.reg is absent and userdef.reg is
present), the result is user.reg's content, not userdef.reg's. -/
theorem load_from_prefix_userdef_example_false :
    WineRegistry.load_from_prefix RegFileOutcome.Missing (RegFileOutcome.Loaded regOnlyB)
        (RegFileOutcome.Loaded regOnlyC) = Except.ok regOnlyC
    ∧ (Except.ok regOnlyC : Except PrefixError Registry) ≠ Except.ok regOnlyB := by
  decide

/-- C2 amended: load_from_prefix implements exactly the wholesale precedence
the specification words describe — system.reg's registry first, replaced in
its entirety by userdef.reg's only when the current result has zero keys,
then replaced in its entirety by user.reg's whenever user.reg parsed; with
keys A, B, C in the three files only C survives; with user.reg and
userdef.reg absent the result is exactly system.reg's content; and with
system.reg and user.reg both absent and userdef.reg present the result is
userdef.reg's content (the original claim asserted this last fallback for
user.reg still present, which the counterexample refutes). -/
theorem load_from_prefix_wholesale_precedence :
    (∀ s ud u, WineRegistry.load_from_prefix s ud u = specWholesalePrecedence s ud u)
    ∧ WineRegistry.load_from_prefix (RegFileOutcome.Loaded regOnlyA)
        (RegFileOutcome.Loaded regOnlyB) (RegFileOutcome.Loaded regOnlyC) = Except.ok regOnlyC
    ∧ (∀ r, WineRegistry.load_from_prefix (RegFileOutcome.Loaded r)
        RegFileOutcome.Missing RegFileOutcome.Missing = Except.ok r)
    ∧ (∀ r, WineRegistry.load_from_prefix RegFileOutcome.Missing
        (RegFileOutcome.Loaded r) RegFileOutcome.Missing = Except.ok r) := by
  refine ⟨?_, by decide, ?_, ?_⟩
  · intro s ud u
    cases s <;> cases ud <;> cases u <;>
      simp [WineRegistry.load_from_prefix, specWholesalePrecedence, RegFileOutcome.loaded]
  · intro r
    simp [WineRegistry.load_from_prefix]
  · intro r
    simp [WineRegistry.load_from_prefix, Registry.new]

/-- C3 counterexample: a `set_desktop_settings` call whose desktops map holds
one invalidly named entry returns a Validation error, yet the ShowSystray
write that precedes the per-entry validation has already mutated the store. -/
theorem set_desktop_settings_partial_mutation :
    (RegistryEditor.set_desktop_settings emptyRegistry
        { desktop := none, desktops := [("bad:name", { width := 800, height := 600 })],
          show_systray := false }).1
      = Except.error (PrefixError.ValidationError "Invalid character ':' in value name")
    ∧ WineRegistry.get_value
        (RegistryEditor.set_desktop_settings emptyRegistry
          { desktop := none, desktops := [("bad:name", { width := 800, height := 600 })],
            show_systray := false }).2
        "Software\\Wine\\Explorer" "ShowSystray" = some (Value.Dword 0)
    ∧ WineRegistry.get_value emptyRegistry "Software\\Wine\\Explorer" "ShowSystray" = none := by
  decide

/-- C3 amended: the single-value setters validate everything before writing
and leave the store unchanged whenever they return an error (for the audio,
graphics and DPI setters the store is untouched on every call, since they
always fail validation); the composite setters `set_desktop_settings` and
`set_app_settings` validate their constant key path up front but validate
each desktops / DLL-override / custom-settings entry name only immediately
before writing that entry — they succeed exactly when every entry name is
valid, and on a failing entry the error is returned with the earlier writes
of the same call already applied (no atomicity). -/
theorem setters_validate_before_write_amended (reg : Registry)
    (version driver_a driver_g app_name : String) (size_mb : Nat) (dpi : DpiSettings)
    (dset : DesktopSettings) (aset : AppSettings) :
    (∀ e, (RegistryEditor.set_windows_version reg version).1 = Except.error e
      → (RegistryEditor.set_windows_version reg version).2 = reg)
    ∧ (RegistryEditor.set_audio_driver reg driver_a).2 = reg
    ∧ (RegistryEditor.set_graphics_driver reg driver_g).2 = reg
    ∧ (∀ e, (RegistryEditor.set_video_memory_size reg size_mb).1 = Except.error e
      → (RegistryEditor.set_video_memory_size reg size_mb).2 = reg)
    ∧ (RegistryEditor.set_dpi_settings reg dpi).2 = reg
    ∧ ((RegistryEditor.set_desktop_settings reg dset).1 = Except.ok ()
        ↔ ∀ q ∈ dset.desktops, RegistryEditor.validate_value_name q.1 = Except.ok ())
    ∧ ((RegistryEditor.set_app_settings reg app_name aset).1 = Except.ok ()
        ↔ ((∀ d ∈ aset.dll_overrides,
              RegistryEditor.validate_value_name d.dll = Except.ok ())
          ∧ ∀ q ∈ aset.custom_settings,
              RegistryEditor.validate_value_name q.1 = Except.ok ())) := by
  refine ⟨?_, ?_, ?_, ?_, ?_, ?_, ?_⟩
  · intro e he
    have h1 : RegistryEditor.validate_key_path "Software\\Wine" = Except.ok () := by decide
    have h2 : RegistryEditor.validate_value_name "Version" = Except.ok () := by decide
    cases hfs : WindowsVersion.from_string version with
    | none => simp [RegistryEditor.set_windows_version, h1, h2, hfs]
    | some w =>
      rw [RegistryEditor.set_windows_version] at he
      simp [h1, h2, hfs] at he
  · rw [set_audio_driver_eq]
  · rw [set_graphics_driver_eq]
  · intro e he
    by_cases hr : size_mb = 0 ∨ size_mb > 16384
    · rw [set_video_memory_size_out_of_range _ _ hr]
    · rw [set_video_memory_size_in_range _ _ hr] at he
      simp at he
  · rw [set_dpi_settings_eq]
  · exact set_desktop_settings_fst_ok_iff reg dset
  · exact set_app_settings_fst_ok_iff reg app_name aset

/-- C4: both driver setters unconditionally return the "Value name cannot be
empty" Validation error and leave the store unchanged — `validate_value_name`
has no carve-out for the intentionally targeted empty/default slot, so no
driver string (recognised or not) can ever be stored through them. -/
theorem set_audio_graphics_driver_never_succeed (reg : Registry) (driver : String) :
    RegistryEditor.set_audio_driver reg driver
      = (Except.error (PrefixError.ValidationError "Value name cannot be empty"), reg)
    ∧ RegistryEditor.set_graphics_driver reg driver
      = (Except.error (PrefixError.ValidationError "Value name cannot be empty"), reg)
    ∧ AudioDriver.from_string "pulse" = some AudioDriver.Pulse
    ∧ GraphicsDriver.from_string "x11" = some GraphicsDriver.X11 := by
  exact ⟨set_audio_driver_eq reg driver, set_graphics_driver_eq reg driver, rfl, rfl⟩

/-- C5 counterexample: on the empty registry every constituent read of the
desktop composite is absent, yet `get_desktop_settings` returns a record —
with ShowSystray invented as true — instead of none. -/
theorem get_desktop_settings_empty_some :
    RegistryEditor.get_string_value emptyRegistry "Software\\Wine\\Explorer" "Desktop" = none
    ∧ RegistryEditor.get_dword_value emptyRegistry "Software\\Wine\\Explorer" "ShowSystray" = none
    ∧ WineRegistry.get_key_values emptyRegistry "Software\\Wine\\Explorer\\Desktops" = []
    ∧ RegistryEditor.get_desktop_settings emptyRegistry
        = some { desktop := none, desktops := [], show_systray := true } := by
  decide

/-- C5 amended: the shader-model, X11-driver and Mac-driver composite getters
return none exactly when every constituent primitive read is absent and
otherwise a record in which every field whose read is absent stays none (the
shader record's fields are exactly the six reads); `get_desktop_settings`
however always returns a record, whose desktop field is the raw read and
whose non-optional ShowSystray field defaults to true when its read is
absent. -/
theorem composite_getters_absent_fields (reg : Registry) :
    (RegistryEditor.get_shader_model_settings reg = none
      ↔ (RegistryEditor.get_dword_value reg "Software\\Wine\\Direct3D" "MaxShaderModelVS" = none
        ∧ RegistryEditor.get_dword_value reg "Software\\Wine\\Direct3D" "MaxShaderModelPS" = none
        ∧ RegistryEditor.get_dword_value reg "Software\\Wine\\Direct3D" "MaxShaderModelGS" = none
        ∧ RegistryEditor.get_dword_value reg "Software\\Wine\\Direct3D" "MaxShaderModelHS" = none
        ∧ RegistryEditor.get_dword_value reg "Software\\Wine\\Direct3D" "MaxShaderModelDS" = none
        ∧ RegistryEditor.get_dword_value reg "Software\\Wine\\Direct3D" "MaxShaderModelCS" = none))
    ∧ (∀ s, RegistryEditor.get_shader_model_settings reg = some s →
        s = { max_shader_model_vs :=
                RegistryEditor.get_dword_value reg "Software\\Wine\\Direct3D" "MaxShaderModelVS"
              max_shader_model_ps :=
                RegistryEditor.get_dword_value reg "Software\\Wine\\Direct3D" "MaxShaderModelPS"
              max_shader_model_gs :=
                RegistryEditor.get_dword_value reg "Software\\Wine\\Direct3D" "MaxShaderModelGS"
              max_shader_model_hs :=
                RegistryEditor.get_dword_value reg "Software\\Wine\\Direct3D" "MaxShaderModelHS"
              max_shader_model_ds :=
                RegistryEditor.get_dword_value reg "Software\\Wine\\Direct3D" "MaxShaderModelDS"
              max_shader_model_cs :=
                RegistryEditor.get_dword_value reg "Software\\Wine\\Direct3D" "MaxShaderModelCS" })
    ∧ (RegistryEditor.get_x11_driver_settings reg = none
      ↔ (RegistryEditor.get_string_value reg "Software\\Wine\\X11 Driver" "Decorated" = none
        ∧ RegistryEditor.get_string_value reg "Software\\Wine\\X11 Driver"
            "ClientSideGraphics" = none
        ∧ RegistryEditor.get_string_value reg "Software\\Wine\\X11 Driver"
            "ClientSideWithRender" = none
        ∧ RegistryEditor.get_string_value reg "Software\\Wine\\X11 Driver"
            "ClientSideAntiAliasWithRender" = none
        ∧ RegistryEditor.get_string_value reg "Software\\Wine\\X11 Driver"
            "ClientSideAntiAliasWithCore" = none
        ∧ RegistryEditor.get_string_value reg "Software\\Wine\\X11 Driver" "GrabFullscreen" = none
        ∧ RegistryEditor.get_string_value reg "Software\\Wine\\X11 Driver" "GrabPointer" = none
        ∧ RegistryEditor.get_string_value reg "Software\\Wine\\X11 Driver" "Managed" = none
        ∧ RegistryEditor.get_string_value reg "Software\\Wine\\X11 Driver" "UseXRandR" = none
        ∧ RegistryEditor.get_string_value reg "Software\\Wine\\X11 Driver" "UseXVidMode" = none))
    ∧ (∀ s, RegistryEditor.get_x11_driver_settings reg = some s →
        (RegistryEditor.get_string_value reg "Software\\Wine\\X11 Driver" "Decorated" = none
          → s.decorated = none)
        ∧ (RegistryEditor.get_string_value reg "Software\\Wine\\X11 Driver" "UseXVidMode" = none
          → s.use_xvid_mode = none))
    ∧ (RegistryEditor.get_mac_driver_settings reg = none
      ↔ (RegistryEditor.get_string_value reg "Software\\Wine\\Mac Driver"
            "AllowVerticalSync" = none
        ∧ RegistryEditor.get_string_value reg "Software\\Wine\\Mac Driver"
            "CaptureDisplaysForFullscreen" = none
        ∧ RegistryEditor.get_string_value reg "Software\\Wine\\Mac Driver"
            "UsePreciseScrolling" = none
        ∧ RegistryEditor.get_string_value reg "Software\\Wine\\Mac Driver" "RetinaMode" = none
        ∧ RegistryEditor.get_string_value reg "Software\\Wine\\Mac Driver"
            "WindowsFloatWhenInactive" = none))
    ∧ (∀ s, RegistryEditor.get_mac_driver_settings reg = some s →
        (RegistryEditor.get_string_value reg "Software\\Wine\\Mac Driver"
            "AllowVerticalSync" = none → s.allow_vertical_sync = none)
        ∧ (RegistryEditor.get_string_value reg "Software\\Wine\\Mac Driver"
            "RetinaMode" = none → s.retina_mode = none))
    ∧ (∃ s, RegistryEditor.get_desktop_settings reg = some s
        ∧ s.desktop = RegistryEditor.get_string_value reg "Software\\Wine\\Explorer" "Desktop"
        ∧ (RegistryEditor.get_dword_value reg "Software\\Wine\\Explorer" "ShowSystray" = none
            → s.show_systray = true)) := by
  refine ⟨shader_none_iff reg, fun s h => shader_some_eq reg s h, x11_none_iff reg,
    fun s h => ?_, mac_none_iff reg, fun s h => ?_, desktop_always_some reg⟩
  · have hx := x11_some_fields reg s h
    exact ⟨hx.1, hx.2.2.2.2.2.2.2.2.2⟩
  · have hm := mac_some_fields reg s h
    exact ⟨hm.1, hm.2.2.2.1⟩

/-- C6: right after `cache_registry`, a lookup within the TTL returns the
cached handle; once the age exceeds the TTL the same lookup returns none
while the stale entry is still present in the map (the lookup never evicts);
and after `invalidate_cache` the lookup returns none whatever the clock says. -/
theorem cache_ttl_and_invalidate (c : InMemoryRegistryCache) (p : String) (r : Registry)
    (t0 t : Nat) :
    ((t - t0 ≤ c.default_ttl →
        (c.cache_registry t0 p r).get_cached_registry t p = some r)
    ∧ (t - t0 > c.default_ttl →
        (c.cache_registry t0 p r).get_cached_registry t p = none
        ∧ lookupAssoc (c.cache_registry t0 p r).cache p
            = some { registry := r, created_at := t0, ttl := c.default_ttl })
    ∧ ((c.cache_registry t0 p r).invalidate_cache p).get_cached_registry t p = none) := by
  have hlook : lookupAssoc (c.cache_registry t0 p r).cache p
      = some { registry := r, created_at := t0, ttl := c.default_ttl } := by
    simp [InMemoryRegistryCache.cache_registry, lookupAssoc_updateAssoc_self]
  refine ⟨?_, ?_, ?_⟩
  · intro h
    simp [InMemoryRegistryCache.get_cached_registry, hlook, CacheEntry.is_expired,
      Nat.not_lt.mpr h]
  · intro h
    refine ⟨?_, hlook⟩
    simp [InMemoryRegistryCache.get_cached_registry, hlook, CacheEntry.is_expired, h]
  · have hnone := lookupAssoc_filter_ne (c.cache_registry t0 p r).cache p
    simp only [ne_eq, decide_not] at hnone
    simp [InMemoryRegistryCache.invalidate_cache, InMemoryRegistryCache.get_cached_registry,
      hnone]

/-- C7: `load_from_prefix` fails with the "no valid registry files" error
exactly when none of the three files was present and parsed, and a
present-but-unparseable file contributes exactly what a missing file would —
the remaining files' content is still returned. -/
theorem load_from_prefix_missing_and_parse_failures (s ud u : RegFileOutcome) :
    (WineRegistry.load_from_prefix s ud u
        = Except.error (PrefixError.RegistryError "No valid registry files found in Wine prefix")
      ↔ s.loaded = false ∧ ud.loaded = false ∧ u.loaded = false)
    ∧ WineRegistry.load_from_prefix s.discardParseFail ud.discardParseFail u.discardParseFail
        = WineRegistry.load_from_prefix s ud u := by
  cases s <;> cases ud <;> cases u <;>
    simp [WineRegistry.load_from_prefix, RegFileOutcome.loaded, RegFileOutcome.discardParseFail]

/-- C8: `set_video_memory_size` returns the range Validation error exactly
when the size is outside 1..=16384, leaves the store untouched in that case,
and for an in-range size succeeds with `get_video_memory_size` reading the
size back. -/
theorem set_video_memory_size_range_check (reg : Registry) (size_mb : Nat) :
    ((RegistryEditor.set_video_memory_size reg size_mb).1
        = Except.error
            (PrefixError.ValidationError "Video memory size must be between 1 and 16384 MB")
      ↔ (size_mb = 0 ∨ size_mb > 16384))
    ∧ ((size_mb = 0 ∨ size_mb > 16384) →
        (RegistryEditor.set_video_memory_size reg size_mb).2 = reg)
    ∧ (1 ≤ size_mb ∧ size_mb ≤ 16384 →
        (RegistryEditor.set_video_memory_size reg size_mb).1 = Except.ok ()
        ∧ RegistryEditor.get_video_memory_size
            (RegistryEditor.set_video_memory_size reg size_mb).2 = some size_mb) := by
  by_cases hr : size_mb = 0 ∨ size_mb > 16384
  · refine ⟨?_, fun _ => ?_, fun hin => ?_⟩
    · rw [set_video_memory_size_out_of_range _ _ hr]
      simp [hr]
    · rw [set_video_memory_size_out_of_range _ _ hr]
    · rcases hr with h | h <;> omega
  · refine ⟨?_, fun hc => absurd hc hr, fun _ => ⟨?_, ?_⟩⟩
    · rw [set_video_memory_size_in_range _ _ hr]
      simp [hr]
    · rw [set_video_memory_size_in_range _ _ hr]
    · rw [set_video_memory_size_in_range _ _ hr]
      exact get_dword_value_set_dword_value_self _ _ _ _

/-- C10: `set_dpi_settings` fails with the key-path Validation error on every
input — its key "Control Panel\Desktop" is rejected by `validate_key_path` —
and leaves the store unchanged, while `get_dpi_settings` reads the same key
without that check and returns a value no `set_dpi_settings` call could have
written. -/
theorem set_dpi_settings_always_rejected (reg : Registry) (settings : DpiSettings) :
    RegistryEditor.set_dpi_settings reg settings
      = (Except.error (PrefixError.ValidationError
          "Invalid key path format: Control Panel\\Desktop. Expected to start with 'Software'"),
        reg)
    ∧ RegistryEditor.get_dpi_settings
        (WineRegistry.set_value emptyRegistry "Control Panel\\Desktop" "LogPixels"
          (Value.Dword 120))
        = some { log_pixels := some 120 } := by
  exact ⟨set_dpi_settings_eq reg settings, by decide⟩

/-- C9: writing a single Mac-driver boolean field and reading it back
round-trips for both truth values, and the stored string follows each
field's codec — lowercase y/n for vertical sync, display capture and precise
scrolling, and uppercase Y / lowercase n for retina mode. -/
theorem mac_driver_flag_roundtrip (reg : Registry) (b : Bool) :
    ((RegistryEditor.set_mac_driver_settings reg
        { MacDriverSettings.new with allow_vertical_sync := some b }).1 = Except.ok ()
    ∧ WineRegistry.get_value
        (RegistryEditor.set_mac_driver_settings reg
          { MacDriverSettings.new with allow_vertical_sync := some b }).2
        "Software\\Wine\\Mac Driver" "AllowVerticalSync"
        = some (Value.Sz (if b then "y" else "n"))
    ∧ ∃ s, RegistryEditor.get_mac_driver_settings
          (RegistryEditor.set_mac_driver_settings reg
            { MacDriverSettings.new with allow_vertical_sync := some b }).2 = some s
        ∧ s.allow_vertical_sync = some b)
    ∧ ((RegistryEditor.set_mac_driver_settings reg
        { MacDriverSettings.new with capture_displays_for_fullscreen := some b }).1 = Except.ok ()
    ∧ WineRegistry.get_value
        (RegistryEditor.set_mac_driver_settings reg
          { MacDriverSettings.new with capture_displays_for_fullscreen := some b }).2
        "Software\\Wine\\Mac Driver" "CaptureDisplaysForFullscreen"
        = some (Value.Sz (if b then "y" else "n"))
    ∧ ∃ s, RegistryEditor.get_mac_driver_settings
          (RegistryEditor.set_mac_driver_settings reg
            { MacDriverSettings.new with capture_displays_for_fullscreen := some b }).2 = some s
        ∧ s.capture_displays_for_fullscreen = some b)
    ∧ ((RegistryEditor.set_mac_driver_settings reg
        { MacDriverSettings.new with use_precise_scrolling := some b }).1 = Except.ok ()
    ∧ WineRegistry.get_value
        (RegistryEditor.set_mac_driver_settings reg
          { MacDriverSettings.new with use_precise_scrolling := some b }).2
        "Software\\Wine\\Mac Driver" "UsePreciseScrolling"
        = some (Value.Sz (if b then "y" else "n"))
    ∧ ∃ s, RegistryEditor.get_mac_driver_settings
          (RegistryEditor.set_mac_driver_settings reg
            { MacDriverSettings.new with use_precise_scrolling := some b }).2 = some s
        ∧ s.use_precise_scrolling = some b)
    ∧ ((RegistryEditor.set_mac_driver_settings reg
        { MacDriverSettings.new with retina_mode := some b }).1 = Except.ok ()
    ∧ WineRegistry.get_value
        (RegistryEditor.set_mac_driver_settings reg
          { MacDriverSettings.new with retina_mode := some b }).2
        "Software\\Wine\\Mac Driver" "RetinaMode"
        = some (Value.Sz (if b then "Y" else "n"))
    ∧ ∃ s, RegistryEditor.get_mac_driver_settings
          (RegistryEditor.set_mac_driver_settings reg
            { MacDriverSettings.new with retina_mode := some b }).2 = some s
        ∧ s.retina_mode = some b) := by
  have hkp : RegistryEditor.validate_key_path "Software\\Wine\\Mac Driver" = Except.ok () := by
    decide
  have hv1 : RegistryEditor.validate_value_name "AllowVerticalSync" = Except.ok () := by decide
  have hv2 : RegistryEditor.validate_value_name "CaptureDisplaysForFullscreen" = Except.ok () := by
    decide
  have hv3 : RegistryEditor.validate_value_name "UsePreciseScrolling" = Except.ok () := by decide
  have hv4 : RegistryEditor.validate_value_name "RetinaMode" = Except.ok () := by decide
  refine ⟨?_, ?_, ?_, ?_⟩
  · have hset : RegistryEditor.set_mac_driver_settings reg
        { MacDriverSettings.new with allow_vertical_sync := some b }
        = (Except.ok (), RegistryEditor.set_string_value reg "Software\\Wine\\Mac Driver"
            "AllowVerticalSync" (if b then "y" else "n")) := by
      simp [RegistryEditor.set_mac_driver_settings, MacDriverSettings.new, hkp,
        RegistryEditor.writeValidated, hv1]
    rw [hset]
    refine ⟨rfl, ?_, ?_⟩
    · simp [RegistryEditor.set_string_value, get_value_set_value_self]
    · have hread : RegistryEditor.get_string_value
          (RegistryEditor.set_string_value reg "Software\\Wine\\Mac Driver" "AllowVerticalSync"
            (if b then "y" else "n"))
          "Software\\Wine\\Mac Driver" "AllowVerticalSync" = some (if b then "y" else "n") :=
        get_string_value_set_string_value_self _ _ _ _
      simp only [RegistryEditor.get_mac_driver_settings, hread]
      cases b <;> simp
  · have hset : RegistryEditor.set_mac_driver_settings reg
        { MacDriverSettings.new with capture_displays_for_fullscreen := some b }
        = (Except.ok (), RegistryEditor.set_string_value reg "Software\\Wine\\Mac Driver"
            "CaptureDisplaysForFullscreen" (if b then "y" else "n")) := by
      simp [RegistryEditor.set_mac_driver_settings, MacDriverSettings.new, hkp,
        RegistryEditor.writeValidated, hv2]
    rw [hset]
    refine ⟨rfl, ?_, ?_⟩
    · simp [RegistryEditor.set_string_value, get_value_set_value_self]
    · have hread : RegistryEditor.get_string_value
          (RegistryEditor.set_string_value reg "Software\\Wine\\Mac Driver"
            "CaptureDisplaysForFullscreen" (if b then "y" else "n"))
          "Software\\Wine\\Mac Driver" "CaptureDisplaysForFullscreen"
          = some (if b then "y" else "n") :=
        get_string_value_set_string_value_self _ _ _ _
      simp only [RegistryEditor.get_mac_driver_settings, hread]
      cases b <;> simp
  · have hset : RegistryEditor.set_mac_driver_settings reg
        { MacDriverSettings.new with use_precise_scrolling := some b }
        = (Except.ok (), RegistryEditor.set_string_value reg "Software\\Wine\\Mac Driver"
            "UsePreciseScrolling" (if b then "y" else "n")) := by
      simp [RegistryEditor.set_mac_driver_settings, MacDriverSettings.new, hkp,
        RegistryEditor.writeValidated, hv3]
    rw [hset]
    refine ⟨rfl, ?_, ?_⟩
    · simp [RegistryEditor.set_string_value, get_value_set_value_self]
    · have hread : RegistryEditor.get_string_value
          (RegistryEditor.set_string_value reg "Software\\Wine\\Mac Driver"
            "UsePreciseScrolling" (if b then "y" else "n"))
          "Software\\Wine\\Mac Driver" "UsePreciseScrolling" = some (if b then "y" else "n") :=
        get_string_value_set_string_value_self _ _ _ _
      simp only [RegistryEditor.get_mac_driver_settings, hread]
      cases b <;> simp
  · have hset : RegistryEditor.set_mac_driver_settings reg
        { MacDriverSettings.new with retina_mode := some b }
        = (Except.ok (), RegistryEditor.set_string_value reg "Software\\Wine\\Mac Driver"
            "RetinaMode" (if b then "Y" else "n")) := by
      simp [RegistryEditor.set_mac_driver_settings, MacDriverSettings.new, hkp,
        RegistryEditor.writeValidated, hv4]
    rw [hset]
    refine ⟨rfl, ?_, ?_⟩
    · simp [RegistryEditor.set_string_value, get_value_set_value_self]
    · have hread : RegistryEditor.get_string_value
          (RegistryEditor.set_string_value reg "Software\\Wine\\Mac Driver" "RetinaMode"
            (if b then "Y" else "n"))
          "Software\\Wine\\Mac Driver" "RetinaMode" = some (if b then "Y" else "n") :=
        get_string_value_set_string_value_self _ _ _ _
      simp only [RegistryEditor.get_mac_driver_settings, hread]
      cases b <;> simp
